import Mathlib

/-!
Verification of the Recommendation & Workflow Composition Engine.

A shallow embedding, in Lean 4, of the recommendation core of the
`stats_solver` repository (skill matching, scoring/ranking, prerequisite
checking and chain building), together with theorems settling the frozen
claims about it.

Conventions of the embedding:
* Python floats are modelled as exact rationals (`ℚ`); every numeric
  literal of the source is an exact decimal, so no rounding behaviour is
  modelled.
* Python strings are Lean `String`s; `needle in haystack` is substring
  containment (`pyStrIn`), true for the empty needle, as in Python.
* Python sets are modelled as deduplicated lists; only cardinalities,
  membership and joined renderings of sets are consumed downstream, and
  iteration order (arbitrary in Python) is fixed here as list order.
* Python dicts keyed by skill id are modelled by `pyDictOfSkills`
  (later binding wins, first-insertion position kept).
* Code that raises at runtime is modelled in `Except PyError`; pure code
  returns plainly.
-/

namespace StatsSolver

/-! ## Python semantics helpers -/

/-- Python `needle in haystack` for strings: substring containment
(always true for the empty needle). -/
def pyStrIn (needle haystack : String) : Bool :=
  decide (needle.toList <:+: haystack.toList)

/-- Python `xs[:n]` for an arbitrary integer `n`: a non-negative `n` keeps the
first `n` elements, a negative `n` drops the last `-n` elements. -/
def pySlice (xs : List α) (n : Int) : List α :=
  if 0 ≤ n then xs.take n.toNat else xs.take (xs.length - (-n).toNat)

/-- Python `set(xs)` (as a list of the distinct elements; Python's iteration
order over a set is arbitrary, so downstream code may only rely on membership
and cardinality). -/
def pySet [DecidableEq α] (xs : List α) : List α := xs.dedup

/-- Python `set(a) & set(b)` — the distinct elements common to both lists. -/
def pySetInter [DecidableEq α] (a b : List α) : List α :=
  (pySet a).filter (fun x => x ∈ b)

/-- Python truthiness of an optional string: `None` and `""` are falsy. -/
def pyTruthy : Option String → Bool
  | none => false
  | some s => s ≠ ""

/-- Python rendering of an optional string inside an f-string:
`None` prints as `"None"`. -/
def pyStrOfOpt : Option String → String
  | none => "None"
  | some s => s

/-- Python `str.lower()` (ASCII).  Lean's own `String.toLower` is built on
position-based recursion the kernel cannot evaluate, so the embedding maps
over the character list instead. -/
def pyLower (s : String) : String := String.mk (s.toList.map Char.toLower)

/-- Python `s.split(sep)` for a one-character separator. -/
def pySplitOnCharAux (sep : Char) : List Char → List Char → List String
  | [], acc => [String.mk acc.reverse]
  | c :: cs, acc =>
    if c = sep then String.mk acc.reverse :: pySplitOnCharAux sep cs []
    else pySplitOnCharAux sep cs (c :: acc)

def pySplitOnChar (sep : Char) (s : String) : List String :=
  pySplitOnCharAux sep s.toList []

/-- Python `s.replace(old, new)` for one-character arguments. -/
def pyReplaceChar (old new : Char) (s : String) : String :=
  String.mk (s.toList.map (fun c => if c = old then new else c))

/-- Python `s.startswith(pre)`. -/
def pyStartsWith (s pre : String) : Bool :=
  decide (pre.toList <+: s.toList)

/-- Python `s[:n]` for a string and `n ≥ 0`. -/
def pyStrTake (s : String) (n : Nat) : String :=
  String.mk (s.toList.take n)

/-! ## Data model (skills/metadata_schema.py, problem/*) -/

/-- `SkillCategory` of `skills/metadata_schema.py`. -/
inductive SkillCategory where
  | statistical_method
  | mathematical_implementation
  | data_analysis
  | visualization
  | algorithm
  deriving DecidableEq, Repr

def SkillCategory.value : SkillCategory → String
  | .statistical_method => "statistical_method"
  | .mathematical_implementation => "mathematical_implementation"
  | .data_analysis => "data_analysis"
  | .visualization => "visualization"
  | .algorithm => "algorithm"

/-- `DataType` of `skills/metadata_schema.py`. -/
inductive DataType where
  | numerical
  | categorical
  | time_series
  | text
  | boolean
  | mixed
  deriving DecidableEq, Repr

def DataType.value : DataType → String
  | .numerical => "numerical"
  | .categorical => "categorical"
  | .time_series => "time_series"
  | .text => "text"
  | .boolean => "boolean"
  | .mixed => "mixed"

/-- `SkillMetadata` of `skills/metadata_schema.py`, restricted to the fields
the recommendation core reads (`path`, `type_group`, `algorithm_name`,
`source`, `last_updated`, `custom_fields` and the stored `confidence` are
never consulted by the matcher, scorer, prerequisite checker or chain
builder). -/
structure SkillMetadata where
  name : String
  id : String
  category : SkillCategory
  tags : List String
  input_data_types : List DataType
  output_format : Option String
  description : String
  long_description : Option String := none
  dependencies : List String
  prerequisites : List String
  use_cases : List String
  statistical_concept : Option String
  assumptions : List String := []
  complexity : Option String
  deriving DecidableEq, Repr

/-- `ProblemFeatures` of `problem/extractor.py`, restricted to the fields
the recommendation core reads. -/
structure ProblemFeatures where
  description : String
  data_types : List DataType
  problem_type : String
  primary_goal : String
  context_keywords : List String
  requires_visualization : Bool
  deriving DecidableEq, Repr

/-- `ProblemType` of `problem/classifier.py`. -/
inductive ProblemType where
  | hypothesis_test
  | one_sample_test
  | two_sample_test
  | anova
  | chi_square
  | regression
  | linear_regression
  | logistic_regression
  | correlation
  | classification
  | clustering
  | descriptive
  | distribution_analysis
  | optimization
  | minimization
  | maximization
  | simulation
  | monte_carlo
  | bootstrap
  | time_series
  | forecasting
  | unknown
  | multi_step
  deriving DecidableEq, Repr

def ProblemType.value : ProblemType → String
  | .hypothesis_test => "hypothesis_test"
  | .one_sample_test => "one_sample_test"
  | .two_sample_test => "two_sample_test"
  | .anova => "anova"
  | .chi_square => "chi_square"
  | .regression => "regression"
  | .linear_regression => "linear_regression"
  | .logistic_regression => "logistic_regression"
  | .correlation => "correlation"
  | .classification => "classification"
  | .clustering => "clustering"
  | .descriptive => "descriptive"
  | .distribution_analysis => "distribution_analysis"
  | .optimization => "optimization"
  | .minimization => "minimization"
  | .maximization => "maximization"
  | .simulation => "simulation"
  | .monte_carlo => "monte_carlo"
  | .bootstrap => "bootstrap"
  | .time_series => "time_series"
  | .forecasting => "forecasting"
  | .unknown => "unknown"
  | .multi_step => "multi_step"

/-- `OutputFormat` of `problem/output_format.py`. -/
inductive OutputFormat where
  | plot | graph | chart | histogram | scatter_plot | line_plot | bar_chart | heatmap
  | table | dataframe | spreadsheet | csv
  | number | float | integer | percentage
  | text | report | summary | explanation
  | boolean | yes_no | true_false
  | p_value | confidence_interval | statistic
  | file | image | pdf
  | print | display
  | unknown
  deriving DecidableEq, Repr

def OutputFormat.value : OutputFormat → String
  | .plot => "plot"
  | .graph => "graph"
  | .chart => "chart"
  | .histogram => "histogram"
  | .scatter_plot => "scatter_plot"
  | .line_plot => "line_plot"
  | .bar_chart => "bar_chart"
  | .heatmap => "heatmap"
  | .table => "table"
  | .dataframe => "dataframe"
  | .spreadsheet => "spreadsheet"
  | .csv => "csv"
  | .number => "number"
  | .float => "float"
  | .integer => "integer"
  | .percentage => "percentage"
  | .text => "text"
  | .report => "report"
  | .summary => "summary"
  | .explanation => "explanation"
  | .boolean => "boolean"
  | .yes_no => "yes_no"
  | .true_false => "true_false"
  | .p_value => "p_value"
  | .confidence_interval => "confidence_interval"
  | .statistic => "statistic"
  | .file => "file"
  | .image => "image"
  | .pdf => "pdf"
  | .print => "print"
  | .display => "display"
  | .unknown => "unknown"

/-- `DataTypeDetectionResult` of `problem/data_types.py` (passed to the
matcher but never read by `_match_data_types`). -/
structure DataTypeDetectionResult where
  primary_type : DataType
  secondary_types : List DataType
  confidence : ℚ
  evidence : List String
  mixed_type : Bool := false
  deriving DecidableEq, Repr

/-! ## Matcher (recommendation/matcher.py) -/

/-- `MatchResult` of `recommendation/matcher.py`. -/
structure MatchResult where
  skill : SkillMetadata
  score : ℚ
  match_reasons : List String
  mismatches : List String
  confidence : ℚ
  deriving DecidableEq, Repr

namespace SkillMatcher

/-- `SkillMatcher.WEIGHTS` (a dict read back with `.get(key, 0)`). -/
def WEIGHTS : String → ℚ := fun key =>
  if key = "category_match" then 0.3
  else if key = "data_type_match" then 0.25
  else if key = "problem_type_match" then 0.2
  else if key = "output_format_match" then 0.1
  else if key = "tag_relevance" then 0.1
  else if key = "statistical_concept_match" then 0.05
  else 0

/-- The `category_map` dict of `SkillMatcher._match_category`, keyed by the
`problem_type` string of the problem features. -/
def category_map : String → Option SkillCategory := fun pt =>
  if pt = "hypothesis_test" then some .statistical_method
  else if pt = "one_sample_test" then some .statistical_method
  else if pt = "two_sample_test" then some .statistical_method
  else if pt = "anova" then some .statistical_method
  else if pt = "chi_square" then some .statistical_method
  else if pt = "regression" then some .statistical_method
  else if pt = "correlation" then some .statistical_method
  else if pt = "classification" then some .statistical_method
  else if pt = "clustering" then some .statistical_method
  else if pt = "descriptive" then some .statistical_method
  else if pt = "distribution_analysis" then some .statistical_method
  else if pt = "optimization" then some .mathematical_implementation
  else if pt = "simulation" then some .mathematical_implementation
  else if pt = "time_series" then some .statistical_method
  else if pt = "forecasting" then some .statistical_method
  else none

/-- `SkillMatcher._match_category`. -/
def _match_category (skill : SkillMetadata) (problem_features : ProblemFeatures) :
    ℚ × Option String :=
  let expected_category := category_map problem_features.problem_type
  if expected_category.isSome ∧ some skill.category = expected_category then
    (1, some ("Category matches: " ++ skill.category.value))
  else if skill.category = .statistical_method then
    (0.7, some ("Statistical method applicable to " ++ problem_features.problem_type))
  else
    (0.3, some "Category may not be optimal for this problem type")

/-- `", ".join(dt.value for dt in s)`. -/
def joinDataTypes (s : List DataType) : String :=
  String.intercalate ", " (s.map DataType.value)

/-- `SkillMatcher._match_data_types`. -/
def _match_data_types (skill : SkillMetadata) (problem_features : ProblemFeatures)
    (_data_type_result : Option DataTypeDetectionResult) : ℚ × Option String :=
  if skill.input_data_types.isEmpty ∨ problem_features.data_types.isEmpty then
    (0.5, some "Data type compatibility unclear")
  else
    let skill_types := pySet skill.input_data_types
    let problem_types := pySet problem_features.data_types
    if DataType.mixed ∈ skill_types then
      (1, some "Skill supports mixed data types")
    else if DataType.mixed ∈ problem_types ∧ pySetInter skill_types problem_types ≠ [] then
      (0.7, some ("Supports " ++ joinDataTypes (pySetInter skill_types problem_types)))
    else
      let overlap := pySetInter skill_types problem_types
      if overlap ≠ [] then
        if overlap.length = problem_types.length then
          (1, some ("Fully compatible data types: " ++ joinDataTypes overlap))
        else
          (0.6, some ("Partially compatible: " ++ joinDataTypes overlap))
      else
        (0.2, some "Data type mismatch")

/-- `SkillMatcher._match_problem_type`. -/
def _match_problem_type (skill : SkillMetadata) (problem_type : ProblemType) :
    ℚ × Option String :=
  let problem_type_keywords := pySplitOnChar '_' problem_type.value
  let skill_text := String.intercalate " "
    [(pyLower skill.name), (pyLower skill.description),
     String.intercalate " " (skill.tags.map pyLower)]
  let kw_matches := (problem_type_keywords.filter (fun kw => pyStrIn kw skill_text)).length
  if kw_matches ≥ 2 then
    (1, some ("Directly addresses " ++ problem_type.value))
  else if kw_matches = 1 then
    (0.7, some ("Related to " ++ problem_type.value))
  else if pyTruthy skill.statistical_concept ∧
      problem_type_keywords.any
        (fun kw => pyStrIn kw (pyLower (pyStrOfOpt skill.statistical_concept))) then
    (0.6, some ("Statistical concept matches: " ++ pyStrOfOpt skill.statistical_concept))
  else
    (0.4, some ("May be applicable to " ++ problem_type.value))

/-- The `format_keywords` dict of `SkillMatcher._match_output_format`
(read back with `.get(output_format, [])`). -/
def format_keywords : OutputFormat → List String
  | .plot => ["plot", "graph", "chart", "visual", "figure"]
  | .table => ["table", "dataframe", "tabular"]
  | .number => ["number", "value", "result", "scalar"]
  | .text => ["text", "report", "summary", "explain"]
  | _ => []

/-- `SkillMatcher._match_output_format`. -/
def _match_output_format (skill : SkillMetadata) (output_format : Option OutputFormat) :
    ℚ × Option String :=
  match output_format with
  | none => (1, some "No specific output format required")
  | some fmt =>
    if fmt = .unknown then
      (1, some "No specific output format required")
    else
      let skill_format := if pyTruthy skill.output_format then
        (pyLower (pyStrOfOpt skill.output_format)) else ""
      let required_format := (pyLower fmt.value)
      if pyStrIn required_format skill_format ∨ pyStrIn skill_format required_format then
        (1, some ("Output format matches: " ++ pyStrOfOpt skill.output_format))
      else if (format_keywords fmt).any (fun kw =>
          pyStrIn kw (pyLower skill.description) ∨
          pyStrIn kw (pyLower (String.intercalate " " skill.tags))) then
        (0.8, some ("Can produce " ++ fmt.value ++ " output"))
      else
        (0.5, some "Output format compatibility uncertain")

/-- `SkillMatcher._match_tags`. -/
def _match_tags (skill : SkillMetadata) (problem_features : ProblemFeatures) :
    ℚ × Option String :=
  if skill.tags.isEmpty ∨ problem_features.context_keywords.isEmpty then
    (0.5, some "Tag relevance unclear")
  else
    let skill_tags := pySet (skill.tags.map pyLower)
    let problem_keywords := pySet (problem_features.context_keywords.map pyLower)
    let kw_matches := pySetInter skill_tags problem_keywords
    if kw_matches.length ≥ 2 then
      (1, some ("Tags match: " ++ String.intercalate ", " kw_matches))
    else if kw_matches.length = 1 then
      (0.7, some ("Tag match: " ++ String.intercalate ", " kw_matches))
    else
      match skill.use_cases.find? (fun uc =>
        problem_keywords.any (fun kw => pyStrIn kw (pyLower uc))) with
      | some use_case => (0.6, some ("Use case relevant: " ++ pyStrTake use_case 50))
      | none => (0.4, some "No direct tag matches")

/-- The `related_terms` dict of `SkillMatcher._match_statistical_concept`,
keyed by the raw (un-lowered) `statistical_concept` string. -/
def related_terms : String → Option (List String) := fun concept =>
  if concept = "hypothesis_testing" then some ["test", "hypothesis", "significant", "p-value"]
  else if concept = "regression" then some ["predict", "model", "relationship", "fit"]
  else if concept = "correlation" then some ["correlate", "relationship", "association"]
  else if concept = "clustering" then some ["cluster", "group", "segment"]
  else if concept = "distribution_analysis" then some ["distribution", "normality", "shape"]
  else none

/-- `SkillMatcher._match_statistical_concept`. -/
def _match_statistical_concept (skill : SkillMetadata)
    (problem_features : ProblemFeatures) : ℚ × Option String :=
  if ¬ pyTruthy skill.statistical_concept then
    (0.5, some "No statistical concept specified")
  else
    let concept := pyStrOfOpt skill.statistical_concept
    let concept_lower := (pyLower concept)
    let problem_text := String.intercalate " "
      [(pyLower problem_features.description), (pyLower problem_features.primary_goal),
       String.intercalate " " problem_features.context_keywords]
    if pyStrIn concept_lower problem_text then
      (1, some ("Statistical concept directly matches: " ++ concept))
    else
      match related_terms concept with
      | some terms =>
        if terms.any (fun term => pyStrIn term problem_text) then
          (0.7, some ("Related to " ++ concept))
        else
          (0.5, some ("Statistical concept: " ++ concept))
      | none => (0.5, some ("Statistical concept: " ++ concept))

/-- Append a justification to the reasons list when it is truthy
(`if reason: match_reasons.append(reason)`). -/
def appendReason (reasons : List String) (reason : Option String) : List String :=
  if pyTruthy reason then reasons ++ [pyStrOfOpt reason] else reasons

/-- `SkillMatcher._match_single_skill` (pure: the `async` is vestigial). -/
def _match_single_skill (skill : SkillMetadata) (problem_features : ProblemFeatures)
    (problem_type : ProblemType) (data_type_result : Option DataTypeDetectionResult)
    (output_format : Option OutputFormat) : MatchResult :=
  let (category_score, category_reason) := _match_category skill problem_features
  let (data_type_score, data_type_reason) :=
    _match_data_types skill problem_features data_type_result
  let (problem_type_score, problem_type_reason) := _match_problem_type skill problem_type
  let (output_score, output_reason) := _match_output_format skill output_format
  let (tag_score, tag_reason) := _match_tags skill problem_features
  let (concept_score, concept_reason) := _match_statistical_concept skill problem_features
  let match_reasons :=
    appendReason (appendReason (appendReason (appendReason (appendReason
      (appendReason [] category_reason) data_type_reason) problem_type_reason)
      output_reason) tag_reason) concept_reason
  let mismatches := if pyTruthy output_reason then [] else ["Output format mismatch"]
  let total_score :=
    category_score * WEIGHTS "category_match" +
    data_type_score * WEIGHTS "data_type_match" +
    problem_type_score * WEIGHTS "problem_type_match" +
    output_score * WEIGHTS "output_format_match" +
    tag_score * WEIGHTS "tag_relevance" +
    concept_score * WEIGHTS "statistical_concept_match"
  let confidence := min ((match_reasons.length : ℚ) / 4) 1
  { skill := skill
    score := total_score
    match_reasons := match_reasons
    mismatches := mismatches
    confidence := confidence }

/-- Stable insertion into a list sorted descending by `key`: the model of
where Python's stable sort places an element coming before the list. -/
def insertDescBy (key : α → ℚ) (x : α) : List α → List α
  | [] => [x]
  | y :: ys => if key x < key y then y :: insertDescBy key x ys else x :: y :: ys

/-- Python's `list.sort(key=key, reverse=True)` / `sorted(..., reverse=True)`:
a stable sort, descending by `key`. -/
def pySortDescBy (key : α → ℚ) : List α → List α
  | [] => []
  | x :: xs => insertDescBy key x (pySortDescBy key xs)

/-- `SkillMatcher.match` (named `matchSkills`: `match` is reserved in Lean).
Scores every skill, sorts descending by score and truncates with Python
slice semantics `results[:top_k]`. -/
def matchSkills (skills : List SkillMetadata) (problem_features : ProblemFeatures)
    (problem_type : ProblemType) (data_type_result : Option DataTypeDetectionResult)
    (output_format : Option OutputFormat) (top_k : Int) : List MatchResult :=
  let results := skills.map (fun skill =>
    _match_single_skill skill problem_features problem_type data_type_result output_format)
  pySlice (pySortDescBy (fun r => r.score) results) top_k

end SkillMatcher

/-! ## Scorer / Ranker (recommendation/scorer.py) -/

/-- `RankingMethod` of `recommendation/scorer.py`. -/
inductive RankingMethod where
  | weighted_score
  | confidence_score
  | balanced
  | popularity
  | recently_used
  deriving DecidableEq, Repr

/-- `Recommendation` of `recommendation/scorer.py` (the free-form `metadata`
dict, which only echoes the ranking method's name, is not modelled). -/
structure Recommendation where
  skill : SkillMetadata
  match_score : ℚ
  confidence : ℚ
  final_score : ℚ
  match_reasons : List String
  mismatches : List String
  ranking_position : Option Nat := none
  deriving DecidableEq, Repr

namespace RecommendationScorer

/-- The `skill_usage_history` dict (skill id → usage count), as passed to the
scorer's constructor.  Keys are unique in a Python dict, so lookups use the
first matching pair. -/
def UsageHistory := List (String × Int)

/-- `self.skill_usage_history.get(skill_id, 0)`. -/
def usageGet (history : List (String × Int)) (skill_id : String) : Int :=
  match history.find? (fun p => p.1 = skill_id) with
  | some p => p.2
  | none => 0

/-- `max(self.skill_usage_history.values()) if self.skill_usage_history else 1`. -/
def pyMaxUsage : List (String × Int) → Int
  | [] => 1
  | p :: ps => ps.foldl (fun m q => max m q.2) p.2

/-- `RecommendationScorer._calculate_final_score`. -/
def _calculate_final_score (ranking_method : RankingMethod)
    (history : List (String × Int)) (match_result : MatchResult) : ℚ :=
  match ranking_method with
  | .weighted_score => match_result.score
  | .confidence_score => match_result.confidence
  | .balanced => match_result.score * 0.7 + match_result.confidence * 0.3
  | .popularity =>
    let usage_count := usageGet history match_result.skill.id
    let max_usage := pyMaxUsage history
    let popularity_score := if 0 < max_usage then (usage_count : ℚ) / (max_usage : ℚ) else 0
    match_result.score * 0.7 + popularity_score * 0.3
  | .recently_used =>
    let usage_count := usageGet history match_result.skill.id
    let max_usage := pyMaxUsage history
    let recency_score := if 0 < max_usage then (usage_count : ℚ) / (max_usage : ℚ) else 0
    match_result.score * 0.8 + recency_score * 0.2

/-- The `Recommendation(...)` constructed for one match result inside
`score_recommendations` (before ranking positions are assigned). -/
def toRecommendation (ranking_method : RankingMethod) (history : List (String × Int))
    (match_result : MatchResult) : Recommendation :=
  { skill := match_result.skill
    match_score := match_result.score
    confidence := match_result.confidence
    final_score := _calculate_final_score ranking_method history match_result
    match_reasons := match_result.match_reasons
    mismatches := match_result.mismatches
    ranking_position := none }

/-- `RecommendationScorer._rank_recommendations`:
`sorted(recommendations, key=lambda r: r.final_score, reverse=True)`. -/
def _rank_recommendations (recommendations : List Recommendation) : List Recommendation :=
  SkillMatcher.pySortDescBy (fun r => r.final_score) recommendations

/-- The loop `for i, rec in enumerate(recommendations):
rec.ranking_position = i + 1`, with `start` the value of `i + 1` for the head. -/
def assignPositions (start : Nat) : List Recommendation → List Recommendation
  | [] => []
  | r :: rs => { r with ranking_position := some start } :: assignPositions (start + 1) rs

/-- `RecommendationScorer.score_recommendations` (default
`max_recommendations = 5`): score, stable-sort descending, assign 1-based
positions, truncate with Python slice semantics. -/
def score_recommendations (ranking_method : RankingMethod)
    (history : List (String × Int)) (match_results : List MatchResult)
    (max_recommendations : Int) : List Recommendation :=
  let recommendations := match_results.map (toRecommendation ranking_method history)
  let ranked := _rank_recommendations recommendations
  let positioned := assignPositions 1 ranked
  pySlice positioned max_recommendations

end RecommendationScorer

/-! ## Prerequisite Checker (recommendation/prerequisites.py) -/

/-- `PrerequisiteStatus` (`partial` is spelled `partialMatch`: `partial` is
reserved in Lean; its Python string value is "partial"). -/
inductive PrerequisiteStatus where
  | satisfied
  | missing
  | partialMatch
  | unknown
  deriving DecidableEq, Repr

/-- `Prerequisite` of `recommendation/prerequisites.py`. -/
structure Prerequisite where
  skill_id : String
  skill_name : String
  description : String
  status : PrerequisiteStatus
  confidence : ℚ
  deriving DecidableEq, Repr

/-- `PrerequisiteCheckResult` of `recommendation/prerequisites.py`. -/
structure PrerequisiteCheckResult where
  skill : SkillMetadata
  all_satisfied : Bool
  prerequisites : List Prerequisite
  missing_count : Nat
  satisfied_count : Nat
  warning_message : Option String := none
  deriving DecidableEq, Repr

namespace PrerequisiteChecker

/-- One insertion into the Python dict `{s.id: s for s in available_skills}`:
a later binding for an existing key overwrites its value in place, a new key
goes to the end. -/
def pyDictInsert (m : List SkillMetadata) (s : SkillMetadata) : List SkillMetadata :=
  if m.any (fun t => t.id = s.id) then
    m.map (fun t => if t.id = s.id then s else t)
  else
    m ++ [s]

/-- `available_map = {s.id: s for s in available_skills}` as an id-keyed
association list in dict order. -/
def pyDictOfSkills (available_skills : List SkillMetadata) : List SkillMetadata :=
  available_skills.foldl pyDictInsert []

/-- `prereq_id in available_map` / `available_map[prereq_id]`. -/
def mapFind (available_map : List SkillMetadata) (prereq_id : String) :
    Option SkillMetadata :=
  available_map.find? (fun s => s.id = prereq_id)

/-- Python's `str.title()`: the first cased character of each run of
alphabetic characters is uppercased, the rest lowercased (ASCII reading). -/
def pyTitleAux : Bool → List Char → List Char
  | _, [] => []
  | prevAlpha, c :: cs =>
    let c := if c.isAlpha then (if prevAlpha then c.toLower else c.toUpper) else c
    c :: pyTitleAux (c.isAlpha) cs

def pyTitle (s : String) : String :=
  String.mk (pyTitleAux false s.toList)

/-- `PrerequisiteChecker._find_similar_skills`: names of up to three catalogue
skills whose id overlaps the prerequisite id as a substring (either way). -/
def _find_similar_skills (prereq_id : String) (available_map : List SkillMetadata) :
    List String :=
  let prereq_lower := (pyLower prereq_id)
  ((available_map.filter (fun skill =>
      pyStrIn prereq_lower (pyLower skill.id) ∨ pyStrIn (pyLower skill.id) prereq_lower)).map
    (fun skill => skill.name)).take 3

/-- `PrerequisiteChecker._check_single_prerequisite`. -/
def _check_single_prerequisite (prereq_id : String)
    (available_map : List SkillMetadata) : Prerequisite :=
  match mapFind available_map prereq_id with
  | some prereq_skill =>
    { skill_id := prereq_id
      skill_name := prereq_skill.name
      description := prereq_skill.description
      status := .satisfied
      confidence := 1 }
  | none =>
    let similar := _find_similar_skills prereq_id available_map
    if similar ≠ [] then
      { skill_id := prereq_id
        skill_name := pyTitle (pyReplaceChar '-' ' ' prereq_id)
        description := "Similar to: " ++ String.intercalate ", " similar
        status := .partialMatch
        confidence := 0.5 }
    else
      { skill_id := prereq_id
        skill_name := pyTitle (pyReplaceChar '-' ' ' prereq_id)
        description := "Prerequisite not found"
        status := .missing
        confidence := 0 }

/-- `PrerequisiteChecker._infer_implicit_prerequisites`.  The three inferred
groups, in source order: a descriptive-statistics skill for statistical
methods, a correlation skill for regressions, and up to two sibling skills
sharing the (hard-coded) "scipy" dependency. -/
def _infer_implicit_prerequisites (skill : SkillMetadata)
    (available_skills : List SkillMetadata) : List String :=
  let descriptive_part :=
    if skill.category = .statistical_method then
      if ¬ ((available_skills.filter (fun s => s.id ∈ skill.prerequisites)).any
          (fun s => pyStrIn "descriptive" (pyLower s.id))) then
        let descriptive_skills := (available_skills.filter (fun s =>
          pyStrIn "descriptive" (pyLower s.id) ∨ pyStrIn "summary" (pyLower s.id))).map
          (fun s => s.id)
        if descriptive_skills ≠ [] then descriptive_skills.take 1 else []
      else []
    else []
  let correlation_part :=
    if pyStrIn "regression" (pyLower skill.id) then
      if ¬ ((available_skills.filter (fun s => s.id ∈ skill.prerequisites)).any
          (fun s => pyStrIn "correlation" (pyLower s.id))) then
        let correlation_skills := (available_skills.filter (fun s =>
          pyStrIn "correlation" (pyLower s.id))).map (fun s => s.id)
        if correlation_skills ≠ [] then correlation_skills.take 1 else []
      else []
    else []
  let scipy_part :=
    if "scipy" ∈ skill.dependencies then
      ((available_skills.filter (fun s =>
        "scipy" ∈ s.dependencies ∧ s.id ≠ skill.id)).map (fun s => s.id)).take 2
    else []
  descriptive_part ++ correlation_part ++ scipy_part

/-- One iteration of the counting loops of `check_prerequisites`: append the
checked prerequisite and bump the satisfied/missing counters. -/
def tallyPrereq (acc : List Prerequisite × Nat × Nat) (prereq : Prerequisite) :
    List Prerequisite × Nat × Nat :=
  (acc.1 ++ [prereq],
   acc.2.1 + (if prereq.status = .satisfied then 1 else 0),
   acc.2.2 + (if prereq.status = .missing then 1 else 0))

/-- `PrerequisiteChecker.check_prerequisites` (pure: the `async` is
vestigial).  Checks the declared prerequisites, then the inferred implicit
ones that do not duplicate a declared id. -/
def check_prerequisites (skill : SkillMetadata)
    (available_skills : List SkillMetadata) : PrerequisiteCheckResult :=
  let available_map := pyDictOfSkills available_skills
  let afterExplicit := (skill.prerequisites.map
    (fun prereq_id => _check_single_prerequisite prereq_id available_map)).foldl
    tallyPrereq ([], 0, 0)
  let implicit_prereqs := _infer_implicit_prerequisites skill available_skills
  let afterImplicit := ((implicit_prereqs.filter
    (fun prereq_id => prereq_id ∉ skill.prerequisites)).map
    (fun prereq_id => _check_single_prerequisite prereq_id available_map)).foldl
    tallyPrereq afterExplicit
  let prerequisites := afterImplicit.1
  let satisfied_count := afterImplicit.2.1
  let missing_count := afterImplicit.2.2
  { skill := skill
    all_satisfied := missing_count = 0
    prerequisites := prerequisites
    missing_count := missing_count
    satisfied_count := satisfied_count
    warning_message := if 0 < missing_count then
      some ("Missing " ++ toString missing_count ++ " prerequisite(s)") else none }

/-- `PrerequisiteChecker.check_prerequisites_sync`: the synchronous variant,
which checks only the declared prerequisites (no implicit inference). -/
def check_prerequisites_sync (skill : SkillMetadata)
    (available_skills : List SkillMetadata) : PrerequisiteCheckResult :=
  let available_map := pyDictOfSkills available_skills
  let tallied := (skill.prerequisites.map
    (fun prereq_id => _check_single_prerequisite prereq_id available_map)).foldl
    tallyPrereq ([], 0, 0)
  { skill := skill
    all_satisfied := tallied.2.2 = 0
    prerequisites := tallied.1
    missing_count := tallied.2.2
    satisfied_count := tallied.2.1
    warning_message := if 0 < tallied.2.2 then
      some ("Missing " ++ toString tallied.2.2 ++ " prerequisite(s)") else none }

/-- `PrerequisiteChecker.filter_by_prerequisites`: keep a skill when all its
prerequisites are satisfied (`require_all`), or when at least half are
(`satisfied_count >= total / 2`, Python true division). -/
def filter_by_prerequisites (skills : List SkillMetadata)
    (available_skills : List SkillMetadata) (require_all : Bool) :
    List SkillMetadata :=
  skills.filter (fun skill =>
    let result := check_prerequisites_sync skill available_skills
    if require_all then
      result.all_satisfied
    else
      result.prerequisites.length = 0 ∨
        (result.prerequisites.length : ℚ) / 2 ≤ (result.satisfied_count : ℚ))

end PrerequisiteChecker

/-! ## Chain Builder (recommendation/chain_builder.py)

Two statements of `chain_builder.py` can raise at runtime and are therefore
modelled in `Except PyError`:
* `_determine_dependencies` evaluates `s.id` on a `ChainStep`, which has no
  `id` attribute, as soon as `existing_steps` is non-empty (`AttributeError`);
* the visualization branch of `_find_skills_for_step` reads the local name
  `skill` before any assignment when `problem_features.requires_visualization`
  is false (`UnboundLocalError`; when it is true the `or` short-circuits).
-/

/-- The runtime exceptions the chain builder can raise. -/
inductive PyError where
  | attributeError (message : String)
  | unboundLocalError (message : String)
  deriving DecidableEq, Repr

/-- `ChainStepType` of `recommendation/chain_builder.py`. -/
inductive ChainStepType where
  | preparation
  | core_analysis
  | post_processing
  | validation
  | visualization
  deriving DecidableEq, Repr

/-- `ChainStep` of `recommendation/chain_builder.py`.  Note it has **no**
`id` field — `_determine_dependencies` nevertheless reads `s.id`. -/
structure ChainStep where
  skill : SkillMetadata
  step_type : ChainStepType
  order : Nat
  description : String
  depends_on : List String
  estimated_time : Option String := none
  deriving DecidableEq, Repr

/-- `SkillChain` of `recommendation/chain_builder.py` (the free-form
`metadata` dict is not modelled). -/
structure SkillChain where
  name : String
  description : String
  steps : List ChainStep
  total_steps : Nat
  estimated_duration : String
  prerequisites_satisfied : Bool
  confidence : ℚ
  deriving DecidableEq, Repr

namespace SkillChainBuilder

/-- `SkillChainBuilder.WORKFLOW_PATTERNS`, read with
`.get(problem_type, [preparation, core_analysis, visualization])`. -/
def workflowPattern : ProblemType → List ChainStepType
  | .hypothesis_test => [.preparation, .core_analysis, .validation, .visualization]
  | .regression => [.preparation, .core_analysis, .validation, .visualization]
  | .classification => [.preparation, .core_analysis, .post_processing, .visualization]
  | .descriptive => [.preparation, .core_analysis, .visualization]
  | .optimization => [.preparation, .core_analysis, .validation]
  | .simulation => [.preparation, .core_analysis, .post_processing, .visualization]
  | _ => [.preparation, .core_analysis, .visualization]

/-- `SkillChainBuilder._find_skills_for_step`.  Each branch caps its result at
three skills (`skills[:3]`).  The visualization branch evaluates
`problem_features.requires_visualization or skill in core_skill.tags` where
the local `skill` is still unassigned, so a false `requires_visualization`
raises `UnboundLocalError` before any search happens. -/
def _find_skills_for_step (step_type : ChainStepType) (core_skill : SkillMetadata)
    (available_skills : List SkillMetadata) (problem_features : ProblemFeatures) :
    Except PyError (List SkillMetadata) :=
  match step_type with
  | .core_analysis => .ok ([core_skill].take 3)
  | .preparation =>
    let preparation_keywords := ["load", "clean", "prepare", "validate", "preprocess"]
    .ok ((available_skills.filter (fun skill =>
      skill.id ≠ core_skill.id ∧ preparation_keywords.any (fun kw =>
        pyStrIn kw (pyLower skill.id) ∨ pyStrIn kw (pyLower skill.description)))).take 3)
  | .validation =>
    let validation_keywords := ["validate", "check", "test", "assumption", "diagnostic"]
    .ok ((available_skills.filter (fun skill =>
      skill.id ≠ core_skill.id ∧ validation_keywords.any (fun kw =>
        pyStrIn kw (pyLower skill.id) ∨ pyStrIn kw (pyLower skill.description)))).take 3)
  | .post_processing =>
    let post_keywords := ["post", "process", "transform", "format", "export"]
    .ok ((available_skills.filter (fun skill =>
      skill.id ≠ core_skill.id ∧ post_keywords.any (fun kw =>
        pyStrIn kw (pyLower skill.id) ∨ pyStrIn kw (pyLower skill.description)))).take 3)
  | .visualization =>
    if problem_features.requires_visualization then
      let viz_keywords := ["plot", "graph", "chart", "visualize", "display"]
      .ok ((available_skills.filter (fun skill =>
        skill.id ≠ core_skill.id ∧ viz_keywords.any (fun kw =>
          pyStrIn kw (pyLower skill.id) ∨ pyStrIn kw (pyLower skill.description) ∨
          pyStrIn kw (pyLower (String.intercalate " " skill.tags))))).take 3)
    else
      .error (.unboundLocalError
        "cannot access local variable 'skill' where it is not associated with a value")

/-- `list(set(dependencies))` (Python's iteration order over a set is
arbitrary; every reachable call receives the empty list). -/
def pyListSet (dependencies : List String) : List String := dependencies.dedup

/-- `SkillChainBuilder._determine_dependencies`.  The explicit-prerequisite
scan is fine, but the core-analysis test evaluates `s.id` on a `ChainStep`,
so any non-empty `existing_steps` raises `AttributeError`. -/
def _determine_dependencies (skill : SkillMetadata) (existing_steps : List ChainStep)
    (_current_order : Nat) : Except PyError (List String) :=
  let dependencies := skill.prerequisites.foldl (fun acc prereq_id =>
    acc ++ (existing_steps.filter (fun step => prereq_id = step.skill.id)).map
      (fun step => "step_" ++ toString step.order)) []
  match existing_steps with
  | [] => .ok (pyListSet dependencies)
  | _ :: _ => .error (.attributeError "'ChainStep' object has no attribute 'id'")

/-- `SkillChainBuilder._generate_step_description`. -/
def _generate_step_description (skill : SkillMetadata) (step_type : ChainStepType) :
    String :=
  let prefixText := match step_type with
    | .preparation => "Prepare data"
    | .core_analysis => "Perform analysis"
    | .post_processing => "Process results"
    | .validation => "Validate assumptions"
    | .visualization => "Visualize results"
  prefixText ++ ": " ++ skill.description

/-- `SkillChainBuilder._estimate_step_time`. -/
def _estimate_step_time (skill : SkillMetadata) : String :=
  if pyTruthy skill.complexity ∧ pyStrIn "O(n)" (pyStrOfOpt skill.complexity) then
    if pyStrIn "log" (pyStrOfOpt skill.complexity) then "< 1 minute"
    else if pyStartsWith (pyStrOfOpt skill.complexity) "O(n^2)" then "1-5 minutes"
    else "< 1 minute"
  else "< 1 minute"

/-- The inner loop of `build_chain`: append one step per found skill,
incrementing `step_order` with each append. -/
def addStepsForSkills (step_type : ChainStepType) :
    List SkillMetadata → List ChainStep × Nat → Except PyError (List ChainStep × Nat)
  | [], acc => .ok acc
  | skill :: rest, (steps, step_order) => do
    let depends_on ← _determine_dependencies skill steps step_order
    let step : ChainStep :=
      { skill := skill
        step_type := step_type
        order := step_order
        description := _generate_step_description skill step_type
        depends_on := depends_on
        estimated_time := some (_estimate_step_time skill) }
    addStepsForSkills step_type rest (steps ++ [step], step_order + 1)

/-- The outer loop of `build_chain`, over the workflow pattern's slots. -/
def buildSteps (core_skill : SkillMetadata) (available_skills : List SkillMetadata)
    (problem_features : ProblemFeatures) :
    List ChainStepType → List ChainStep × Nat → Except PyError (List ChainStep × Nat)
  | [], acc => .ok acc
  | step_type :: pattern, acc => do
    let step_skills ← _find_skills_for_step step_type core_skill available_skills
      problem_features
    let acc ← addStepsForSkills step_type step_skills acc
    buildSteps core_skill available_skills problem_features pattern acc

/-- `SkillChainBuilder._check_chain_prerequisites` (per-step prerequisite
checks through the Prerequisite Checker). -/
def _check_chain_prerequisites (steps : List ChainStep)
    (available_skills : List SkillMetadata) : List PrerequisiteCheckResult :=
  steps.map (fun step =>
    PrerequisiteChecker.check_prerequisites step.skill available_skills)

/-- `SkillChainBuilder._calculate_chain_confidence`. -/
def _calculate_chain_confidence (steps : List ChainStep)
    (prereq_results : List PrerequisiteCheckResult) : ℚ :=
  if steps.isEmpty then 0
  else
    let confidence : ℚ := 0.8
    let missing_count := (prereq_results.map (fun r => r.missing_count)).sum
    let confidence := if 0 < missing_count then
      confidence - min ((missing_count : ℚ) * 0.05) 0.3 else confidence
    let core_steps := (steps.filter (fun s => s.step_type = .core_analysis)).length
    let confidence := if core_steps = 1 then confidence + 0.1 else confidence
    max 0 (min 1 confidence)

/-- `SkillChainBuilder._generate_chain_name`. -/
def _generate_chain_name (core_skill : SkillMetadata) (_problem_type : ProblemType) :
    String :=
  core_skill.name ++ " Workflow"

/-- `SkillChainBuilder._generate_chain_description`. -/
def _generate_chain_description (core_skill : SkillMetadata)
    (problem_type : ProblemType) : String :=
  "Multi-step workflow for " ++ (pyReplaceChar '_' ' ' problem_type.value) ++ " using " ++
    core_skill.name

/-- `SkillChainBuilder._estimate_chain_duration` (one minute per step,
bucketed). -/
def _estimate_chain_duration (steps : List ChainStep) : String :=
  let total_minutes := steps.length * 1
  if total_minutes < 5 then "< 5 minutes"
  else if total_minutes < 15 then "5-15 minutes"
  else "~" ++ toString total_minutes ++ " minutes"

/-- `SkillChainBuilder.build_chain` (pure except for the two modelled
runtime errors; the `async` is vestigial). -/
def build_chain (core_skill : SkillMetadata) (problem_type : ProblemType)
    (problem_features : ProblemFeatures) (available_skills : List SkillMetadata) :
    Except PyError SkillChain := do
  let pattern := workflowPattern problem_type
  let (steps, _) ← buildSteps core_skill available_skills problem_features pattern ([], 0)
  let prereq_results := _check_chain_prerequisites steps available_skills
  let all_satisfied := prereq_results.all (fun r => r.all_satisfied)
  let confidence := _calculate_chain_confidence steps prereq_results
  pure
    { name := _generate_chain_name core_skill problem_type
      description := _generate_chain_description core_skill problem_type
      steps := steps
      total_steps := steps.length
      estimated_duration := _estimate_chain_duration steps
      prerequisites_satisfied := all_satisfied
      confidence := confidence }

end SkillChainBuilder

/-! ## Concrete fixtures for counterexamples and bug evaluations -/

/-- A two-sample t-test skill (the running example of the spec). -/
def tTestSkill : SkillMetadata :=
  { name := "t-test", id := "t-test", category := .statistical_method,
    tags := ["hypothesis_testing", "means"], input_data_types := [.numerical],
    output_format := none, description := "Two-sample t-test",
    dependencies := [], prerequisites := [], use_cases := [],
    statistical_concept := none, complexity := none }

/-- A data-preparation skill: its id matches the "load" preparation keyword. -/
def loadDataSkill : SkillMetadata :=
  { name := "load-data", id := "load-data", category := .data_analysis,
    tags := [], input_data_types := [.numerical], output_format := none,
    description := "Read the dataset", dependencies := [], prerequisites := [],
    use_cases := [], statistical_concept := none, complexity := none }

/-- Problem features of a descriptive problem that does not ask for a
visualization. -/
def noVizFeatures : ProblemFeatures :=
  { description := "summarize the scores", data_types := [.numerical],
    problem_type := "descriptive", primary_goal := "summarize",
    context_keywords := [], requires_visualization := false }

/-- The same problem features, with visualization requested. -/
def vizFeatures : ProblemFeatures :=
  { noVizFeatures with requires_visualization := true }

/-- A skill depending on the shared library "numpy" (not "scipy"). -/
def numpySkill (idv : String) : SkillMetadata :=
  { name := idv, id := idv, category := .mathematical_implementation,
    tags := [], input_data_types := [.numerical], output_format := none,
    description := "Numerical routine", dependencies := ["numpy"],
    prerequisites := [], use_cases := [], statistical_concept := none,
    complexity := none }

/-- A skill depending on the shared library "scipy". -/
def scipySkill (idv : String) : SkillMetadata :=
  { name := idv, id := idv, category := .mathematical_implementation,
    tags := [], input_data_types := [.numerical], output_format := none,
    description := "Numerical routine", dependencies := ["scipy"],
    prerequisites := [], use_cases := [], statistical_concept := none,
    complexity := none }

/-- Forget a recommendation's assigned ranking position (used to state the
stability of the ranking sort, which assigns positions after sorting). -/
def clearRankingPosition (r : Recommendation) : Recommendation :=
  { r with ranking_position := none }

/-- The per-chain property of claim C9: every entry of a step's `dependsOn`
names a step of the chain with a strictly smaller `order`.  Since the order
strictly decreases along every dependency edge, a cycle in the `dependsOn`
relation is impossible. -/
def chainDependsOnEarlier (chain : SkillChain) : Prop :=
  ∀ step ∈ chain.steps, ∀ dep ∈ step.depends_on,
    ∃ earlier ∈ chain.steps,
      dep = "step_" ++ toString earlier.order ∧ earlier.order < step.order

/-- Claim C9's property over the fallible result of `build_chain`: whenever a
chain is returned, its dependencies point only at strictly earlier steps. -/
def chainResultDependsOnEarlier : Except PyError SkillChain → Prop
  | .error _ => True
  | .ok chain => chainDependsOnEarlier chain

/-! ## Supporting lemmas -/

/- Batteries seals the rational operations against unfolding; concrete
evaluations of the embedding need them reducible again. -/
attribute [local semireducible] Rat.add Rat.mul Rat.sub Rat.inv Rat.ofScientific

namespace SkillMatcher

theorem length_insertDescBy (key : α → ℚ) (x : α) (l : List α) :
    (insertDescBy key x l).length = l.length + 1 := by
  induction l with
  | nil => rfl
  | cons y ys ih =>
    simp only [insertDescBy]
    split
    · simp [ih]
    · simp

theorem mem_insertDescBy {key : α → ℚ} {x z : α} {l : List α} :
    z ∈ insertDescBy key x l ↔ z = x ∨ z ∈ l := by
  induction l with
  | nil => simp [insertDescBy]
  | cons y ys ih =>
    simp only [insertDescBy]
    split
    · simp only [List.mem_cons, ih]
      tauto
    · simp [List.mem_cons]

theorem pairwise_insertDescBy (key : α → ℚ) (x : α) (l : List α)
    (h : l.Pairwise (fun a b => key b ≤ key a)) :
    (insertDescBy key x l).Pairwise (fun a b => key b ≤ key a) := by
  induction l with
  | nil => simp [insertDescBy]
  | cons y ys ih =>
    rw [List.pairwise_cons] at h
    simp only [insertDescBy]
    by_cases hlt : key x < key y
    · rw [if_pos hlt, List.pairwise_cons]
      refine ⟨fun z hz => ?_, ih h.2⟩
      rcases mem_insertDescBy.mp hz with rfl | hz
      · exact le_of_lt hlt
      · exact h.1 z hz
    · rw [if_neg hlt, List.pairwise_cons]
      refine ⟨fun z hz => ?_, List.Pairwise.cons h.1 h.2⟩
      rcases List.mem_cons.mp hz with rfl | hz
      · exact not_lt.mp hlt
      · exact le_trans (h.1 z hz) (not_lt.mp hlt)

theorem length_pySortDescBy (key : α → ℚ) (l : List α) :
    (pySortDescBy key l).length = l.length := by
  induction l with
  | nil => rfl
  | cons x xs ih => simp [pySortDescBy, length_insertDescBy, ih]

theorem mem_pySortDescBy {key : α → ℚ} {z : α} {l : List α} :
    z ∈ pySortDescBy key l ↔ z ∈ l := by
  induction l with
  | nil => simp [pySortDescBy]
  | cons x xs ih => simp [pySortDescBy, mem_insertDescBy, ih]

theorem pairwise_pySortDescBy (key : α → ℚ) (l : List α) :
    (pySortDescBy key l).Pairwise (fun a b => key b ≤ key a) := by
  induction l with
  | nil => simp [pySortDescBy]
  | cons x xs ih => exact pairwise_insertDescBy key x _ ih

theorem filter_insertDescBy (key : α → ℚ) (x : α) (l : List α) (q : ℚ) :
    (insertDescBy key x l).filter (fun z => key z = q) =
      if key x = q then x :: l.filter (fun z => key z = q)
      else l.filter (fun z => key z = q) := by
  induction l with
  | nil => by_cases hx : key x = q <;> simp [insertDescBy, hx]
  | cons y ys ih =>
    simp only [insertDescBy]
    split
    · next hlt =>
      by_cases hx : key x = q
      · have hy : ¬ (key y = q) := by
          intro hy
          rw [hx, hy] at hlt
          exact lt_irrefl q hlt
        simp [List.filter_cons, hx, hy, ih]
      · simp only [List.filter_cons, ih, hx, if_neg hx]
        split <;> simp
    · by_cases hx : key x = q <;> simp [List.filter_cons, hx]

theorem filter_pySortDescBy (key : α → ℚ) (l : List α) (q : ℚ) :
    (pySortDescBy key l).filter (fun z => key z = q) =
      l.filter (fun z => key z = q) := by
  induction l with
  | nil => rfl
  | cons x xs ih =>
    simp only [pySortDescBy, filter_insertDescBy, List.filter_cons, ih]
    split <;> simp_all

end SkillMatcher

theorem pySlice_zero (xs : List α) : pySlice xs 0 = [] := by
  simp [pySlice]

theorem pySlice_eq_take (xs : List α) (n : Int) : ∃ k, pySlice xs n = xs.take k := by
  unfold pySlice
  split
  · exact ⟨n.toNat, rfl⟩
  · exact ⟨xs.length - (-n).toNat, rfl⟩

theorem mem_pySlice {xs : List α} {n : Int} {z : α} (h : z ∈ pySlice xs n) : z ∈ xs := by
  obtain ⟨k, hk⟩ := pySlice_eq_take xs n
  rw [hk] at h
  exact List.take_subset k xs h

theorem length_pySlice_nonneg (xs : List α) {n : Int} (h : 0 ≤ n) :
    (pySlice xs n).length ≤ n.toNat := by
  simp [pySlice, if_pos h]

theorem length_pySlice_neg (xs : List α) {n : Int} (h : n < 0) :
    (pySlice xs n).length = xs.length - (-n).toNat := by
  rw [pySlice, if_neg (not_le.mpr h), List.length_take]
  omega

namespace RecommendationScorer

theorem length_assignPositions (start : Nat) (l : List Recommendation) :
    (assignPositions start l).length = l.length := by
  induction l generalizing start with
  | nil => rfl
  | cons r rs ih => simp [assignPositions, ih]

theorem get_assignPositions (start : Nat) (l : List Recommendation) (i : Nat)
    (h : i < (assignPositions start l).length) :
    (assignPositions start l).get ⟨i, h⟩ =
      { l.get ⟨i, by rwa [length_assignPositions] at h⟩ with
          ranking_position := some (start + i) } := by
  induction l generalizing start i with
  | nil => exact absurd h (by simp [assignPositions])
  | cons r rs ih =>
    cases i with
    | zero => simp [assignPositions]
    | succ j =>
      simp only [assignPositions, List.get_cons_succ]
      rw [ih]
      have harith : start + 1 + j = start + (j + 1) := by omega
      rw [harith]

theorem getElem_pos_assignPositions (start : Nat) (l : List Recommendation) (i : Nat)
    (h : i < (assignPositions start l).length) :
    (GetElem.getElem (assignPositions start l) i h).ranking_position = some (start + i) := by
  induction l generalizing start i with
  | nil => simp [assignPositions] at h
  | cons r rs ih =>
    cases i with
    | zero => rfl
    | succ j =>
      simp only [assignPositions, List.getElem_cons_succ]
      rw [ih]
      congr 1
      omega

theorem pos_get_take_assignPositions (l : List Recommendation) (k i : Nat)
    (hi : i < ((assignPositions 1 l).take k).length) :
    ((((assignPositions 1 l).take k).get ⟨i, hi⟩)).ranking_position = some (i + 1) := by
  rw [List.get_eq_getElem, List.getElem_take, getElem_pos_assignPositions]
  simp [Nat.add_comm]

theorem map_clear_assignPositions (start : Nat) (l : List Recommendation) :
    (assignPositions start l).map clearRankingPosition = l.map clearRankingPosition := by
  induction l generalizing start with
  | nil => rfl
  | cons r rs ih =>
    simp only [assignPositions, List.map_cons, ih]
    rfl

theorem map_final_score_assignPositions (start : Nat) (l : List Recommendation) :
    (assignPositions start l).map (fun r => r.final_score) =
      l.map (fun r => r.final_score) := by
  induction l generalizing start with
  | nil => rfl
  | cons r rs ih => simp [assignPositions, ih]

theorem map_clear_of_no_position (l : List Recommendation)
    (h : ∀ r ∈ l, r.ranking_position = none) :
    l.map clearRankingPosition = l := by
  induction l with
  | nil => rfl
  | cons r rs ih =>
    simp only [List.map_cons]
    rw [ih (fun x hx => h x (List.mem_cons_of_mem r hx))]
    have hr := h r (List.mem_cons_self r rs)
    cases r
    simp_all [clearRankingPosition]

end RecommendationScorer

namespace PrerequisiteChecker

theorem tallyPrereq_spec (l : List Prerequisite) (acc : List Prerequisite) (s m : Nat) :
    l.foldl tallyPrereq (acc, s, m) =
      (acc ++ l,
       s + (l.filter (fun p => p.status = .satisfied)).length,
       m + (l.filter (fun p => p.status = .missing)).length) := by
  induction l generalizing acc s m with
  | nil => simp
  | cons p ps ih =>
    rw [List.foldl_cons]
    simp only [tallyPrereq]
    rw [ih]
    simp only [List.filter_cons, Prod.mk.injEq]
    cases hp : p.status <;> simp_all <;> omega

theorem check_prerequisites_prereqs (skill : SkillMetadata)
    (avail : List SkillMetadata) :
    (check_prerequisites skill avail).prerequisites =
      skill.prerequisites.map
        (fun pid => _check_single_prerequisite pid (pyDictOfSkills avail)) ++
      ((_infer_implicit_prerequisites skill avail).filter
        (fun pid => pid ∉ skill.prerequisites)).map
        (fun pid => _check_single_prerequisite pid (pyDictOfSkills avail)) := by
  simp only [check_prerequisites, tallyPrereq_spec]
  simp

theorem check_prerequisites_satisfied_count (skill : SkillMetadata)
    (avail : List SkillMetadata) :
    (check_prerequisites skill avail).satisfied_count =
      ((check_prerequisites skill avail).prerequisites.filter
        (fun p => p.status = .satisfied)).length := by
  simp only [check_prerequisites, tallyPrereq_spec]
  simp [List.filter_append]

theorem check_prerequisites_missing_count (skill : SkillMetadata)
    (avail : List SkillMetadata) :
    (check_prerequisites skill avail).missing_count =
      ((check_prerequisites skill avail).prerequisites.filter
        (fun p => p.status = .missing)).length := by
  simp only [check_prerequisites, tallyPrereq_spec]
  simp [List.filter_append]

theorem check_prerequisites_all_satisfied (skill : SkillMetadata)
    (avail : List SkillMetadata) :
    ((check_prerequisites skill avail).all_satisfied = true ↔
      (check_prerequisites skill avail).missing_count = 0) := by
  simp only [check_prerequisites, tallyPrereq_spec]
  simp

theorem filter_satisfied_add_filter_missing_le (l : List Prerequisite) :
    (l.filter (fun p => p.status = .satisfied)).length +
      (l.filter (fun p => p.status = .missing)).length ≤ l.length := by
  induction l with
  | nil => simp
  | cons p ps ih =>
    simp only [List.filter_cons, List.length_cons]
    cases hp : p.status <;> simp <;> omega

theorem skill_id_check_single (pid : String) (m : List SkillMetadata) :
    (_check_single_prerequisite pid m).skill_id = pid := by
  unfold _check_single_prerequisite
  rcases h : mapFind m pid with _ | s
  · dsimp only
    split <;> rfl
  · rfl

theorem exists_id_pyDictInsert (m : List SkillMetadata) (s : SkillMetadata)
    (P : String → Prop) :
    (∃ t ∈ pyDictInsert m s, P t.id) ↔ (∃ t ∈ m, P t.id) ∨ P s.id := by
  unfold pyDictInsert
  split
  · next hany =>
    obtain ⟨t0, ht0, hid0⟩ := List.any_eq_true.mp hany
    constructor
    · rintro ⟨t, ht, hP⟩
      obtain ⟨t1, ht1, rfl⟩ := List.mem_map.mp ht
      by_cases h1 : t1.id = s.id
      · right
        simpa [h1] using hP
      · left
        exact ⟨t1, ht1, by simpa [h1] using hP⟩
    · rintro (⟨t, ht, hP⟩ | hP)
      · by_cases h1 : t.id = s.id
        · exact ⟨s, List.mem_map.mpr ⟨t, ht, by simp [h1]⟩, h1 ▸ hP⟩
        · exact ⟨t, List.mem_map.mpr ⟨t, ht, by simp [h1]⟩, hP⟩
      · exact ⟨s, List.mem_map.mpr ⟨t0, ht0, by simp [of_decide_eq_true hid0]⟩, hP⟩
  · constructor
    · rintro ⟨t, ht, hP⟩
      rcases List.mem_append.mp ht with ht | ht
      · exact Or.inl ⟨t, ht, hP⟩
      · rcases List.mem_singleton.mp ht with rfl
        exact Or.inr hP
    · rintro (⟨t, ht, hP⟩ | hP)
      · exact ⟨t, List.mem_append_left _ ht, hP⟩
      · exact ⟨s, List.mem_append_right _ (List.mem_singleton.mpr rfl), hP⟩

theorem exists_id_pyDictOfSkills (avail : List SkillMetadata) (P : String → Prop) :
    (∃ t ∈ pyDictOfSkills avail, P t.id) ↔ ∃ t ∈ avail, P t.id := by
  suffices h : ∀ (l : List SkillMetadata) (acc : List SkillMetadata),
      (∃ t ∈ l.foldl pyDictInsert acc, P t.id) ↔
        (∃ t ∈ acc, P t.id) ∨ (∃ t ∈ l, P t.id) by
    rw [pyDictOfSkills, h avail []]
    simp
  intro l
  induction l with
  | nil => simp
  | cons x xs ih =>
    intro acc
    rw [List.foldl_cons, ih (pyDictInsert acc x), exists_id_pyDictInsert]
    simp only [List.mem_cons]
    constructor
    · rintro ((h | h) | h)
      · exact Or.inl h
      · exact Or.inr ⟨x, Or.inl rfl, h⟩
      · obtain ⟨t, ht, hP⟩ := h
        exact Or.inr ⟨t, Or.inr ht, hP⟩
    · rintro (h | ⟨t, (rfl | ht), hP⟩)
      · exact Or.inl (Or.inl h)
      · exact Or.inl (Or.inr hP)
      · exact Or.inr ⟨t, ht, hP⟩

theorem mapFind_isSome_iff (avail : List SkillMetadata) (pid : String) :
    (mapFind (pyDictOfSkills avail) pid).isSome ↔ ∃ s ∈ avail, s.id = pid := by
  rw [mapFind, List.find?_isSome]
  refine Iff.trans ?_ (exists_id_pyDictOfSkills avail (fun idv => idv = pid))
  simp

theorem find_similar_ne_nil_iff (pid : String) (avail : List SkillMetadata) :
    _find_similar_skills pid (pyDictOfSkills avail) ≠ [] ↔
      ∃ s ∈ avail,
        (pyStrIn (pyLower pid) (pyLower s.id) ∨ pyStrIn (pyLower s.id) (pyLower pid)) := by
  rw [_find_similar_skills]
  rw [ne_eq, List.take_eq_nil_iff]
  simp only [List.map_eq_nil_iff, OfNat.ofNat_ne_zero, false_or]
  rw [← ne_eq, ne_eq, List.filter_eq_nil_iff]
  push_neg
  refine Iff.trans ?_ (exists_id_pyDictOfSkills avail
    (fun idv => pyStrIn (pyLower pid) (pyLower idv) ∨ pyStrIn (pyLower idv) (pyLower pid)))
  constructor
  · rintro ⟨s, hs, hp⟩
    exact ⟨s, hs, by simpa using hp⟩
  · rintro ⟨s, hs, hp⟩
    exact ⟨s, hs, by simpa using hp⟩

theorem check_single_found (pid : String) (avail : List SkillMetadata)
    (h : ∃ s ∈ avail, s.id = pid) :
    (_check_single_prerequisite pid (pyDictOfSkills avail)).status = .satisfied ∧
    (_check_single_prerequisite pid (pyDictOfSkills avail)).confidence = 1 := by
  obtain ⟨s, hs⟩ := Option.isSome_iff_exists.mp ((mapFind_isSome_iff avail pid).mpr h)
  unfold _check_single_prerequisite
  rw [hs]
  exact ⟨rfl, rfl⟩

theorem check_single_partial (pid : String) (avail : List SkillMetadata)
    (h : ¬ ∃ s ∈ avail, s.id = pid)
    (hsim : ∃ s ∈ avail, pyStrIn (pyLower pid) (pyLower s.id) ∨
      pyStrIn (pyLower s.id) (pyLower pid)) :
    (_check_single_prerequisite pid (pyDictOfSkills avail)).status = .partialMatch ∧
    (_check_single_prerequisite pid (pyDictOfSkills avail)).confidence = 0.5 := by
  have hnone : mapFind (pyDictOfSkills avail) pid = none :=
    Option.not_isSome_iff_eq_none.mp (fun hs => h ((mapFind_isSome_iff avail pid).mp hs))
  have hne := (find_similar_ne_nil_iff pid avail).mpr hsim
  unfold _check_single_prerequisite
  rw [hnone]
  dsimp only
  rw [if_pos hne]
  exact ⟨rfl, rfl⟩

theorem check_single_missing (pid : String) (avail : List SkillMetadata)
    (h : ¬ ∃ s ∈ avail, s.id = pid)
    (hsim : ¬ ∃ s ∈ avail, pyStrIn (pyLower pid) (pyLower s.id) ∨
      pyStrIn (pyLower s.id) (pyLower pid)) :
    (_check_single_prerequisite pid (pyDictOfSkills avail)).status = .missing ∧
    (_check_single_prerequisite pid (pyDictOfSkills avail)).confidence = 0 := by
  have hnone : mapFind (pyDictOfSkills avail) pid = none :=
    Option.not_isSome_iff_eq_none.mp (fun hs => h ((mapFind_isSome_iff avail pid).mp hs))
  have hnil : _find_similar_skills pid (pyDictOfSkills avail) = [] :=
    not_ne_iff.mp (fun hne => hsim ((find_similar_ne_nil_iff pid avail).mp hne))
  unfold _check_single_prerequisite
  rw [hnone]
  dsimp only
  rw [if_neg (not_ne_iff.mpr hnil)]
  exact ⟨rfl, rfl⟩

end PrerequisiteChecker

namespace SkillChainBuilder

theorem exceptBind_error {ε α β : Type} (e : ε) (f : α → Except ε β) :
    (Except.error e : Except ε α) >>= f = Except.error e := rfl

theorem exceptBind_ok {ε α β : Type} (a : α) (f : α → Except ε β) :
    (Except.ok a : Except ε α) >>= f = f a := rfl

theorem determine_dependencies_ok {skill : SkillMetadata}
    {existing : List ChainStep} {ord : Nat} {deps : List String}
    (h : _determine_dependencies skill existing ord = .ok deps) : deps = [] := by
  unfold _determine_dependencies at h
  cases existing with
  | nil =>
    have hfun : ∀ (init : List String) (pid : String),
        (init ++ (([] : List ChainStep).filter
          (fun step => pid = step.skill.id)).map
          (fun step => "step_" ++ toString step.order)) = init := by
      intro init pid
      simp
    have hfold : ∀ (l : List String) (init : List String),
        l.foldl (fun acc prereq_id =>
          acc ++ (([] : List ChainStep).filter
            (fun step => prereq_id = step.skill.id)).map
            (fun step => "step_" ++ toString step.order)) init = init := by
      intro l
      induction l with
      | nil => intro init; rfl
      | cons x xs ih =>
        intro init
        simp only [List.foldl_cons]
        rw [hfun]
        exact ih init
    simp only [hfold] at h
    cases h
    rfl
  | cons a as => exact absurd h (by simp)

theorem addStepsForSkills_ok_deps {step_type : ChainStepType}
    {skills : List SkillMetadata} {acc acc' : List ChainStep × Nat}
    (hin : ∀ s ∈ acc.1, s.depends_on = ([] : List String))
    (h : addStepsForSkills step_type skills acc = .ok acc') :
    ∀ s ∈ acc'.1, s.depends_on = ([] : List String) := by
  induction skills generalizing acc with
  | nil =>
    unfold addStepsForSkills at h
    cases h
    exact hin
  | cons sk rest ih =>
    obtain ⟨steps, ord⟩ := acc
    unfold addStepsForSkills at h
    cases hd : _determine_dependencies sk steps ord with
    | error e =>
      rw [hd, exceptBind_error] at h
      exact absurd h (by simp)
    | ok deps =>
      rw [hd, exceptBind_ok] at h
      refine ih ?_ h
      intro s hs
      rcases List.mem_append.mp hs with hs | hs
      · exact hin s hs
      · rcases List.mem_singleton.mp hs with rfl
        exact determine_dependencies_ok hd

theorem buildSteps_ok_deps {core_skill : SkillMetadata}
    {available_skills : List SkillMetadata} {problem_features : ProblemFeatures}
    {pattern : List ChainStepType} {acc acc' : List ChainStep × Nat}
    (hin : ∀ s ∈ acc.1, s.depends_on = ([] : List String))
    (h : buildSteps core_skill available_skills problem_features pattern acc = .ok acc') :
    ∀ s ∈ acc'.1, s.depends_on = ([] : List String) := by
  induction pattern generalizing acc with
  | nil =>
    unfold buildSteps at h
    cases h
    exact hin
  | cons st pat ih =>
    unfold buildSteps at h
    cases hf : _find_skills_for_step st core_skill available_skills problem_features with
    | error e =>
      rw [hf, exceptBind_error] at h
      exact absurd h (by simp)
    | ok step_skills =>
      rw [hf, exceptBind_ok] at h
      cases ha : addStepsForSkills st step_skills acc with
      | error e =>
        rw [ha, exceptBind_error] at h
        exact absurd h (by simp)
      | ok acc1 =>
        rw [ha, exceptBind_ok] at h
        exact ih (addStepsForSkills_ok_deps hin ha) h

end SkillChainBuilder

namespace SkillMatcher

theorem append_ne_empty_of_left_pos (s t : String) (hs : 0 < s.length) :
    s ++ t ≠ "" := by
  intro he
  have hlen : (s ++ t).length = 0 := by rw [he]; rfl
  rw [String.length_append] at hlen
  omega

theorem append3_ne_empty_of_left_pos (s t u : String) (hs : 0 < s.length) :
    s ++ t ++ u ≠ "" := by
  intro he
  have hlen : (s ++ t ++ u).length = 0 := by rw [he]; rfl
  rw [String.length_append, String.length_append] at hlen
  omega

theorem match_category_spec (skill : SkillMetadata) (pf : ProblemFeatures) :
    (0 ≤ (_match_category skill pf).1 ∧ (_match_category skill pf).1 ≤ 1) ∧
    ∃ r, (_match_category skill pf).2 = some r ∧ r ≠ "" := by
  simp only [_match_category]
  repeat' split
  all_goals refine ⟨⟨by norm_num, by norm_num⟩, _, rfl, ?_⟩
  all_goals first
    | decide
    | exact append_ne_empty_of_left_pos _ _ (by decide)

theorem match_data_types_spec (skill : SkillMetadata) (pf : ProblemFeatures)
    (dtr : Option DataTypeDetectionResult) :
    (0 ≤ (_match_data_types skill pf dtr).1 ∧ (_match_data_types skill pf dtr).1 ≤ 1) ∧
    ∃ r, (_match_data_types skill pf dtr).2 = some r ∧ r ≠ "" := by
  simp only [_match_data_types]
  repeat' split
  all_goals refine ⟨⟨by norm_num, by norm_num⟩, _, rfl, ?_⟩
  all_goals first
    | decide
    | exact append_ne_empty_of_left_pos _ _ (by decide)

theorem match_problem_type_spec (skill : SkillMetadata) (pt : ProblemType) :
    (0 ≤ (_match_problem_type skill pt).1 ∧ (_match_problem_type skill pt).1 ≤ 1) ∧
    ∃ r, (_match_problem_type skill pt).2 = some r ∧ r ≠ "" := by
  simp only [_match_problem_type]
  repeat' split
  all_goals refine ⟨⟨by norm_num, by norm_num⟩, _, rfl, ?_⟩
  all_goals first
    | decide
    | exact append_ne_empty_of_left_pos _ _ (by decide)

theorem match_output_format_spec (skill : SkillMetadata) (fmt : Option OutputFormat) :
    (0 ≤ (_match_output_format skill fmt).1 ∧ (_match_output_format skill fmt).1 ≤ 1) ∧
    ∃ r, (_match_output_format skill fmt).2 = some r ∧ r ≠ "" := by
  simp only [_match_output_format]
  repeat' split
  all_goals refine ⟨⟨by norm_num, by norm_num⟩, _, rfl, ?_⟩
  all_goals first
    | decide
    | exact append_ne_empty_of_left_pos _ _ (by decide)
    | exact append3_ne_empty_of_left_pos _ _ _ (by decide)

theorem match_tags_spec (skill : SkillMetadata) (pf : ProblemFeatures) :
    (0 ≤ (_match_tags skill pf).1 ∧ (_match_tags skill pf).1 ≤ 1) ∧
    ∃ r, (_match_tags skill pf).2 = some r ∧ r ≠ "" := by
  simp only [_match_tags]
  repeat' split
  all_goals refine ⟨⟨by norm_num, by norm_num⟩, _, rfl, ?_⟩
  all_goals first
    | decide
    | exact append_ne_empty_of_left_pos _ _ (by decide)

theorem match_statistical_concept_spec (skill : SkillMetadata) (pf : ProblemFeatures) :
    (0 ≤ (_match_statistical_concept skill pf).1 ∧
      (_match_statistical_concept skill pf).1 ≤ 1) ∧
    ∃ r, (_match_statistical_concept skill pf).2 = some r ∧ r ≠ "" := by
  simp only [_match_statistical_concept]
  repeat' split
  all_goals refine ⟨⟨by norm_num, by norm_num⟩, _, rfl, ?_⟩
  all_goals first
    | decide
    | exact append_ne_empty_of_left_pos _ _ (by decide)

theorem appendReason_of_ne (l : List String) (r : String) (h : r ≠ "") :
    appendReason l (some r) = l ++ [r] := by
  simp [appendReason, pyTruthy, pyStrOfOpt, h]

theorem match_single_skill_spec (skill : SkillMetadata) (pf : ProblemFeatures)
    (pt : ProblemType) (dtr : Option DataTypeDetectionResult)
    (fmt : Option OutputFormat) :
    (_match_single_skill skill pf pt dtr fmt).match_reasons.length = 6 ∧
    (∀ r ∈ (_match_single_skill skill pf pt dtr fmt).match_reasons, r ≠ "") ∧
    (_match_single_skill skill pf pt dtr fmt).confidence = 1 ∧
    (_match_single_skill skill pf pt dtr fmt).mismatches = [] ∧
    0 ≤ (_match_single_skill skill pf pt dtr fmt).score ∧
    (_match_single_skill skill pf pt dtr fmt).score ≤ 1 := by
  obtain ⟨hb1, r1, he1, hn1⟩ := match_category_spec skill pf
  obtain ⟨hb2, r2, he2, hn2⟩ := match_data_types_spec skill pf dtr
  obtain ⟨hb3, r3, he3, hn3⟩ := match_problem_type_spec skill pt
  obtain ⟨hb4, r4, he4, hn4⟩ := match_output_format_spec skill fmt
  obtain ⟨hb5, r5, he5, hn5⟩ := match_tags_spec skill pf
  obtain ⟨hb6, r6, he6, hn6⟩ := match_statistical_concept_spec skill pf
  rcases hp1 : _match_category skill pf with ⟨s1, c1⟩
  rcases hp2 : _match_data_types skill pf dtr with ⟨s2, c2⟩
  rcases hp3 : _match_problem_type skill pt with ⟨s3, c3⟩
  rcases hp4 : _match_output_format skill fmt with ⟨s4, c4⟩
  rcases hp5 : _match_tags skill pf with ⟨s5, c5⟩
  rcases hp6 : _match_statistical_concept skill pf with ⟨s6, c6⟩
  rw [hp1] at hb1 he1
  rw [hp2] at hb2 he2
  rw [hp3] at hb3 he3
  rw [hp4] at hb4 he4
  rw [hp5] at hb5 he5
  rw [hp6] at hb6 he6
  dsimp only at hb1 he1 hb2 he2 hb3 he3 hb4 he4 hb5 he5 hb6 he6
  subst he1 he2 he3 he4 he5 he6
  simp only [_match_single_skill, hp1, hp2, hp3, hp4, hp5, hp6]
  rw [appendReason_of_ne _ _ hn1, appendReason_of_ne _ _ hn2, appendReason_of_ne _ _ hn3,
    appendReason_of_ne _ _ hn4, appendReason_of_ne _ _ hn5, appendReason_of_ne _ _ hn6]
  have w1 : WEIGHTS "category_match" = 0.3 := rfl
  have w2 : WEIGHTS "data_type_match" = 0.25 := rfl
  have w3 : WEIGHTS "problem_type_match" = 0.2 := rfl
  have w4 : WEIGHTS "output_format_match" = 0.1 := rfl
  have w5 : WEIGHTS "tag_relevance" = 0.1 := rfl
  have w6 : WEIGHTS "statistical_concept_match" = 0.05 := rfl
  refine ⟨by simp, ?_, ?_, ?_, ?_, ?_⟩
  · intro r hr
    simp only [List.nil_append, List.cons_append, List.mem_cons,
      List.mem_singleton, List.not_mem_nil, or_false] at hr
    rcases hr with rfl | rfl | rfl | rfl | rfl | rfl <;> assumption
  · simp [min_def]
    intro hcontra
    norm_num at hcontra
  · simp [pyTruthy, hn4]
  · rw [w1, w2, w3, w4, w5, w6]
    have := hb1.1
    have := hb2.1
    have := hb3.1
    have := hb4.1
    have := hb5.1
    have := hb6.1
    linarith
  · rw [w1, w2, w3, w4, w5, w6]
    have := hb1.2
    have := hb2.2
    have := hb3.2
    have := hb4.2
    have := hb5.2
    have := hb6.2
    linarith

theorem mem_matchSkills {skills : List SkillMetadata} {pf : ProblemFeatures}
    {pt : ProblemType} {dtr : Option DataTypeDetectionResult}
    {fmt : Option OutputFormat} {top_k : Int} {mr : MatchResult}
    (h : mr ∈ matchSkills skills pf pt dtr fmt top_k) :
    ∃ sk ∈ skills, mr = _match_single_skill sk pf pt dtr fmt := by
  simp only [matchSkills] at h
  have h1 := mem_pySlice h
  have h2 := mem_pySortDescBy.mp h1
  obtain ⟨sk, hsk, rfl⟩ := List.mem_map.mp h2
  exact ⟨sk, hsk, rfl⟩

end SkillMatcher

namespace RecommendationScorer

theorem usageGet_nonneg (history : List (String × Int))
    (hh : ∀ p ∈ history, (0 : Int) ≤ p.2) (idv : String) :
    0 ≤ usageGet history idv := by
  unfold usageGet
  cases hf : history.find? (fun p => p.1 = idv) with
  | none => exact le_refl 0
  | some p => exact hh p (List.mem_of_find?_eq_some hf)

theorem foldl_max_init_le (l : List (String × Int)) (init : Int) :
    init ≤ l.foldl (fun m q => max m q.2) init := by
  induction l generalizing init with
  | nil => exact le_refl _
  | cons x xs ih => exact le_trans (le_max_left _ _) (ih (max init x.2))

theorem foldl_max_mem_le (l : List (String × Int)) (init : Int) (p : String × Int)
    (hp : p ∈ l) : p.2 ≤ l.foldl (fun m q => max m q.2) init := by
  induction l generalizing init with
  | nil => cases hp
  | cons x xs ih =>
    rcases List.mem_cons.mp hp with rfl | hp
    · exact le_trans (le_max_right _ _) (foldl_max_init_le xs (max init p.2))
    · exact ih (max init x.2) hp

theorem usageGet_le_pyMaxUsage (history : List (String × Int))
    (hh : ∀ p ∈ history, (0 : Int) ≤ p.2) (idv : String) :
    usageGet history idv ≤ pyMaxUsage history := by
  cases history with
  | nil => simp [usageGet, pyMaxUsage]
  | cons q qs =>
    unfold usageGet pyMaxUsage
    cases hf : (q :: qs).find? (fun p => p.1 = idv) with
    | none =>
      have h0 : (0 : Int) ≤ q.2 := hh q (List.mem_cons_self q qs)
      exact le_trans h0 (foldl_max_init_le qs q.2)
    | some p =>
      rcases List.mem_cons.mp (List.mem_of_find?_eq_some hf) with rfl | hp
      · exact foldl_max_init_le qs p.2
      · exact foldl_max_mem_le qs q.2 p hp

theorem final_score_bounds (ranking_method : RankingMethod)
    (history : List (String × Int)) (hh : ∀ p ∈ history, (0 : Int) ≤ p.2)
    (mr : MatchResult) (hs0 : 0 ≤ mr.score) (hs1 : mr.score ≤ 1)
    (hc0 : 0 ≤ mr.confidence) (hc1 : mr.confidence ≤ 1) :
    0 ≤ _calculate_final_score ranking_method history mr ∧
    _calculate_final_score ranking_method history mr ≤ 1 := by
  have hratio : ∀ b : ℚ, b = (if 0 < pyMaxUsage history then
      ((usageGet history mr.skill.id : ℚ) / (pyMaxUsage history : ℚ)) else 0) →
      0 ≤ b ∧ b ≤ 1 := by
    intro b hb
    subst hb
    split
    · next hpos =>
      have hu0 : (0 : Int) ≤ usageGet history mr.skill.id :=
        usageGet_nonneg history hh mr.skill.id
      have hum : usageGet history mr.skill.id ≤ pyMaxUsage history :=
        usageGet_le_pyMaxUsage history hh mr.skill.id
      have hq0 : (0 : ℚ) < (pyMaxUsage history : ℚ) := by exact_mod_cast hpos
      constructor
      · apply div_nonneg _ (le_of_lt hq0)
        exact_mod_cast hu0
      · rw [div_le_one hq0]
        exact_mod_cast hum
    · exact ⟨le_refl 0, by norm_num⟩
  cases ranking_method with
  | weighted_score => exact ⟨hs0, hs1⟩
  | confidence_score => exact ⟨hc0, hc1⟩
  | balanced =>
    unfold _calculate_final_score
    constructor <;> linarith
  | popularity =>
    unfold _calculate_final_score
    obtain ⟨hr0, hr1⟩ := hratio _ rfl
    constructor <;> linarith
  | recently_used =>
    unfold _calculate_final_score
    obtain ⟨hr0, hr1⟩ := hratio _ rfl
    constructor <;> linarith

theorem mem_assignPositions_final_score {start : Nat} {l : List Recommendation}
    {rec : Recommendation} (h : rec ∈ assignPositions start l) :
    ∃ r ∈ l, rec.final_score = r.final_score := by
  induction l generalizing start with
  | nil => cases h
  | cons r rs ih =>
    rcases List.mem_cons.mp h with rfl | h
    · exact ⟨r, List.mem_cons_self r rs, rfl⟩
    · obtain ⟨r0, hr0, he⟩ := ih h
      exact ⟨r0, List.mem_cons_of_mem _ hr0, he⟩

theorem mem_score_recommendations {ranking_method : RankingMethod}
    {history : List (String × Int)} {mrs : List MatchResult} {maxRec : Int}
    {rec : Recommendation} (h : rec ∈ score_recommendations ranking_method history mrs maxRec) :
    ∃ mr ∈ mrs, rec.final_score = _calculate_final_score ranking_method history mr := by
  simp only [score_recommendations] at h
  have h1 := mem_pySlice h
  obtain ⟨r0, hr0, he⟩ := mem_assignPositions_final_score h1
  have h2 := SkillMatcher.mem_pySortDescBy.mp hr0
  obtain ⟨mr, hmr, rfl⟩ := List.mem_map.mp h2
  exact ⟨mr, hmr, he⟩

end RecommendationScorer

/-! ## Claims -/

/-- **C1** (code bug).  The claim says the `core_analysis` step of a built
chain lists every earlier `preparation` step in its `dependsOn`.  The code
cannot do this: as soon as a step is appended after an existing one,
`_determine_dependencies` evaluates `s.id` on a `ChainStep` — which has no
`id` attribute — and `build_chain` dies with an `AttributeError`.  Concretely,
with one preparation skill in the catalogue the preparation step is added and
the core step's dependency scan then raises, so no chain is returned at
all. -/
theorem C1_core_dependency_scan_raises :
    SkillChainBuilder.build_chain tTestSkill .descriptive vizFeatures [loadDataSkill] =
      .error (.attributeError "'ChainStep' object has no attribute 'id'") := by
  rfl

/-- **C2** (code bug).  The claim says `buildChain` is total, and in
particular completes when `requiresVisualization` is false by skipping or
tag-gating the visualization slot.  In the code the visualization gate reads
the unassigned local `skill` (`problem_features.requires_visualization or
skill in core_skill.tags`), so whenever `requiresVisualization` is false and
the workflow pattern has a visualization slot the call raises
`UnboundLocalError` — here on an empty catalogue and a descriptive
problem. -/
theorem C2_no_viz_raises_unbound_local :
    SkillChainBuilder.build_chain tTestSkill .descriptive noVizFeatures [] =
      .error (.unboundLocalError
        "cannot access local variable 'skill' where it is not associated with a value") := by
  rfl

/-- **C4** counterexample.  With two skills and `topK = -1`, `match` returns
one result, not the empty list: `results[:top_k]` with a negative `top_k`
drops elements from the end instead of being a no-op (and no validation
error is raised either). -/
theorem C4_negative_topk_not_empty :
    SkillMatcher.matchSkills [tTestSkill, loadDataSkill] noVizFeatures
      .two_sample_test none none (-1) ≠ [] := by
  intro h
  have := congrArg List.length h
  simp only [List.length_nil] at this
  exact absurd this (by decide)

/-- **C5** counterexample.  `numpySkill "curve-fit"` depends on the external
library "numpy", which is shared with two sibling catalogue skills, yet
`checkPrerequisites` injects no implicit prerequisite at all: the code only
ever inspects the hard-coded library name "scipy", so the claimed behaviour
does not hold "for every shared library name". -/
theorem C5_shared_numpy_injects_nothing :
    (PrerequisiteChecker.check_prerequisites (numpySkill "curve-fit")
      [numpySkill "curve-fit", numpySkill "optimize-lib", numpySkill "integrate-lib"]).prerequisites
      = [] := by
  rfl


/-- **C4** (amended).  `match` truncates with Python slice semantics: a
`topK` of `0` yields the empty list, while a negative `topK` drops the last
`-topK` of the sorted results (Nat subtraction truncating at zero) instead of
returning the empty list, and no validation error is raised. -/
theorem C4_topk_slice_semantics (skills : List SkillMetadata)
    (problem_features : ProblemFeatures) (problem_type : ProblemType)
    (data_type_result : Option DataTypeDetectionResult)
    (output_format : Option OutputFormat) (top_k : Int) :
    SkillMatcher.matchSkills skills problem_features problem_type data_type_result
        output_format 0 = [] ∧
    (top_k < 0 →
      (SkillMatcher.matchSkills skills problem_features problem_type data_type_result
          output_format top_k).length = skills.length - (-top_k).toNat) := by
  constructor
  · unfold SkillMatcher.matchSkills
    exact pySlice_zero _
  · intro hneg
    unfold SkillMatcher.matchSkills
    rw [length_pySlice_neg _ hneg, SkillMatcher.length_pySortDescBy, List.length_map]

/-- **C7** (confirmed).  `scoreRecommendations` returns at most
`maxRecommendations` results (when that cap is at least 1), sorted
non-increasingly by `finalScore`; the i-th returned element carries
`rankingPosition = i + 1`; and the sort is stable: for every score value,
the returned recommendations with that `finalScore` (positions forgotten)
are a prefix of the scored inputs with that `finalScore`, in input order. -/
theorem C7_ranking_law (ranking_method : RankingMethod) (history : List (String × Int))
    (match_results : List MatchResult) (max_recommendations : Int) :
    (1 ≤ max_recommendations →
      (RecommendationScorer.score_recommendations ranking_method history match_results
          max_recommendations).length ≤ max_recommendations.toNat) ∧
    (RecommendationScorer.score_recommendations ranking_method history match_results
        max_recommendations).Pairwise (fun a b => b.final_score ≤ a.final_score) ∧
    (∀ i (hi : i < (RecommendationScorer.score_recommendations ranking_method history
        match_results max_recommendations).length),
      ((RecommendationScorer.score_recommendations ranking_method history match_results
          max_recommendations).get ⟨i, hi⟩).ranking_position = some (i + 1)) ∧
    (∀ q : ℚ,
      ((RecommendationScorer.score_recommendations ranking_method history match_results
          max_recommendations).map clearRankingPosition).filter
          (fun r => r.final_score = q) <+:
        (match_results.map (RecommendationScorer.toRecommendation ranking_method
          history)).filter (fun r => r.final_score = q)) := by
  have hsorted := SkillMatcher.pairwise_pySortDescBy (fun r : Recommendation => r.final_score)
    (match_results.map (RecommendationScorer.toRecommendation ranking_method history))
  refine ⟨?_, ?_, ?_, ?_⟩
  · intro hge
    simp only [RecommendationScorer.score_recommendations]
    exact length_pySlice_nonneg _ (by omega)
  · simp only [RecommendationScorer.score_recommendations]
    obtain ⟨k, hk⟩ := pySlice_eq_take (RecommendationScorer.assignPositions 1
      (RecommendationScorer._rank_recommendations
        (match_results.map (RecommendationScorer.toRecommendation ranking_method history))))
      max_recommendations
    rw [hk]
    refine List.Pairwise.sublist (List.take_sublist _ _) ?_
    have h1 : ((RecommendationScorer.assignPositions 1
        (RecommendationScorer._rank_recommendations
          (match_results.map (RecommendationScorer.toRecommendation ranking_method
            history)))).map (fun r => r.final_score)).Pairwise (fun a b => b ≤ a) := by
      rw [RecommendationScorer.map_final_score_assignPositions]
      exact List.pairwise_map.mpr hsorted
    exact List.pairwise_map.mp h1
  · intro i hi
    simp only [RecommendationScorer.score_recommendations] at hi ⊢
    obtain ⟨k, hk⟩ := pySlice_eq_take (RecommendationScorer.assignPositions 1
      (RecommendationScorer._rank_recommendations
        (match_results.map (RecommendationScorer.toRecommendation ranking_method history))))
      max_recommendations
    rw [List.get_of_eq hk]
    exact RecommendationScorer.pos_get_take_assignPositions _ k i _
  · intro q
    simp only [RecommendationScorer.score_recommendations]
    obtain ⟨k, hk⟩ := pySlice_eq_take (RecommendationScorer.assignPositions 1
      (RecommendationScorer._rank_recommendations
        (match_results.map (RecommendationScorer.toRecommendation ranking_method history))))
      max_recommendations
    have hnone : ∀ r ∈ RecommendationScorer._rank_recommendations
        (match_results.map (RecommendationScorer.toRecommendation ranking_method history)),
        r.ranking_position = none := by
      intro r hr
      have hr2 : r ∈ match_results.map
          (RecommendationScorer.toRecommendation ranking_method history) :=
        SkillMatcher.mem_pySortDescBy.mp hr
      obtain ⟨mr, _, rfl⟩ := List.mem_map.mp hr2
      rfl
    rw [hk, List.map_take, RecommendationScorer.map_clear_assignPositions,
      RecommendationScorer.map_clear_of_no_position _ hnone]
    have hstable := SkillMatcher.filter_pySortDescBy
      (fun r : Recommendation => r.final_score)
      (match_results.map (RecommendationScorer.toRecommendation ranking_method history)) q
    calc (((RecommendationScorer._rank_recommendations
          (match_results.map (RecommendationScorer.toRecommendation ranking_method
            history))).take k).filter (fun r => r.final_score = q))
        <+: ((RecommendationScorer._rank_recommendations
          (match_results.map (RecommendationScorer.toRecommendation ranking_method
            history))).filter (fun r => r.final_score = q)) :=
          List.IsPrefix.filter _ (List.take_prefix k _)
      _ = (match_results.map (RecommendationScorer.toRecommendation ranking_method
            history)).filter (fun r => r.final_score = q) := hstable


/-- **C5** (amended).  Only the hard-coded library name "scipy" triggers
sibling injection: for every skill that depends on "scipy", the inferred
implicit prerequisites end with the ids of at most two catalogue skills that
also depend on "scipy" (the skill itself excluded); and the implicit
prerequisites appended by `checkPrerequisites` after the declared ones never
duplicate a declared prerequisite id.  (For any other shared library nothing
is injected — see the counterexample.) -/
theorem C5_scipy_only_injection (skill : SkillMetadata) (avail : List SkillMetadata) :
    (∀ p ∈ (PrerequisiteChecker.check_prerequisites skill avail).prerequisites.drop
        skill.prerequisites.length, p.skill_id ∉ skill.prerequisites) ∧
    (((avail.filter (fun s => "scipy" ∈ s.dependencies ∧ s.id ≠ skill.id)).map
        (fun s => s.id)).take 2).length ≤ 2 ∧
    ("scipy" ∈ skill.dependencies →
      ∃ pre, PrerequisiteChecker._infer_implicit_prerequisites skill avail =
        pre ++ ((avail.filter (fun s => "scipy" ∈ s.dependencies ∧ s.id ≠ skill.id)).map
          (fun s => s.id)).take 2) := by
  refine ⟨?_, List.length_take_le 2 _, ?_⟩
  · intro p hp
    rw [PrerequisiteChecker.check_prerequisites_prereqs,
      List.drop_left' (by rw [List.length_map])] at hp
    obtain ⟨pid, hpid, rfl⟩ := List.mem_map.mp hp
    rw [PrerequisiteChecker.skill_id_check_single]
    have := (List.mem_filter.mp hpid).2
    simpa using this
  · intro h
    simp only [PrerequisiteChecker._infer_implicit_prerequisites, if_pos h]
    exact ⟨_, rfl⟩

/-- **C6** (confirmed).  For every skill and catalogue:
`allSatisfied` holds iff `missingCount = 0`; `satisfiedCount` and
`missingCount` count exactly the `satisfied` and `missing` entries of the
reported prerequisites (so a `partial` entry counts toward neither), whence
`satisfiedCount + missingCount ≤` the number of prerequisites checked; and a
checked id present in the catalogue is reported `satisfied` with confidence
1.0, an absent id with a substring-overlapping catalogue id `partial` with
confidence 0.5, and an absent id without overlap `missing` with
confidence 0.0. -/
theorem C6_prerequisite_check_soundness (skill : SkillMetadata)
    (avail : List SkillMetadata) (pid : String) :
    ((PrerequisiteChecker.check_prerequisites skill avail).all_satisfied = true ↔
      (PrerequisiteChecker.check_prerequisites skill avail).missing_count = 0) ∧
    (PrerequisiteChecker.check_prerequisites skill avail).satisfied_count =
      ((PrerequisiteChecker.check_prerequisites skill avail).prerequisites.filter
        (fun p => p.status = .satisfied)).length ∧
    (PrerequisiteChecker.check_prerequisites skill avail).missing_count =
      ((PrerequisiteChecker.check_prerequisites skill avail).prerequisites.filter
        (fun p => p.status = .missing)).length ∧
    (PrerequisiteChecker.check_prerequisites skill avail).satisfied_count +
        (PrerequisiteChecker.check_prerequisites skill avail).missing_count ≤
      (PrerequisiteChecker.check_prerequisites skill avail).prerequisites.length ∧
    ((∃ s ∈ avail, s.id = pid) →
      (PrerequisiteChecker._check_single_prerequisite pid
        (PrerequisiteChecker.pyDictOfSkills avail)).status = .satisfied ∧
      (PrerequisiteChecker._check_single_prerequisite pid
        (PrerequisiteChecker.pyDictOfSkills avail)).confidence = 1) ∧
    ((¬ ∃ s ∈ avail, s.id = pid) →
      (∃ s ∈ avail, pyStrIn (pyLower pid) (pyLower s.id) ∨
          pyStrIn (pyLower s.id) (pyLower pid)) →
      (PrerequisiteChecker._check_single_prerequisite pid
        (PrerequisiteChecker.pyDictOfSkills avail)).status = .partialMatch ∧
      (PrerequisiteChecker._check_single_prerequisite pid
        (PrerequisiteChecker.pyDictOfSkills avail)).confidence = 0.5) ∧
    ((¬ ∃ s ∈ avail, s.id = pid) →
      (¬ ∃ s ∈ avail, pyStrIn (pyLower pid) (pyLower s.id) ∨
          pyStrIn (pyLower s.id) (pyLower pid)) →
      (PrerequisiteChecker._check_single_prerequisite pid
        (PrerequisiteChecker.pyDictOfSkills avail)).status = .missing ∧
      (PrerequisiteChecker._check_single_prerequisite pid
        (PrerequisiteChecker.pyDictOfSkills avail)).confidence = 0) := by
  refine ⟨PrerequisiteChecker.check_prerequisites_all_satisfied skill avail,
    PrerequisiteChecker.check_prerequisites_satisfied_count skill avail,
    PrerequisiteChecker.check_prerequisites_missing_count skill avail, ?_,
    PrerequisiteChecker.check_single_found pid avail,
    PrerequisiteChecker.check_single_partial pid avail,
    PrerequisiteChecker.check_single_missing pid avail⟩
  rw [PrerequisiteChecker.check_prerequisites_satisfied_count,
    PrerequisiteChecker.check_prerequisites_missing_count]
  exact PrerequisiteChecker.filter_satisfied_add_filter_missing_le _

/-- **C10** (confirmed).  The synchronous check evaluates exactly the
declared prerequisites — it never injects inferred implicit ones — so a
skill with no declared prerequisites gets `allSatisfied = true` with an
empty prerequisites list, and `filter_by_prerequisites` always keeps such a
skill (under either `require_all` mode).  For contrast, on the same
scipy-sibling catalogue the asynchronous check reports injected implicit
prerequisites (a non-empty list) where the synchronous check reports
none. -/
theorem C10_sync_skips_implicit_prerequisites (skill : SkillMetadata)
    (avail : List SkillMetadata) (skills : List SkillMetadata) (require_all : Bool) :
    (PrerequisiteChecker.check_prerequisites_sync skill avail).prerequisites =
      skill.prerequisites.map
        (fun pid => PrerequisiteChecker._check_single_prerequisite pid
          (PrerequisiteChecker.pyDictOfSkills avail)) ∧
    (skill.prerequisites = [] →
      (PrerequisiteChecker.check_prerequisites_sync skill avail).all_satisfied = true ∧
      (PrerequisiteChecker.check_prerequisites_sync skill avail).prerequisites = []) ∧
    (skill.prerequisites = [] → skill ∈ skills →
      skill ∈ PrerequisiteChecker.filter_by_prerequisites skills avail require_all) ∧
    (PrerequisiteChecker.check_prerequisites_sync (scipySkill "scipy-optimize")
      [scipySkill "scipy-optimize", scipySkill "scipy-stats"]).prerequisites = [] ∧
    (PrerequisiteChecker.check_prerequisites (scipySkill "scipy-optimize")
      [scipySkill "scipy-optimize", scipySkill "scipy-stats"]).prerequisites ≠ [] := by
  refine ⟨?_, ?_, ?_, rfl, ?_⟩
  · simp only [PrerequisiteChecker.check_prerequisites_sync,
      PrerequisiteChecker.tallyPrereq_spec]
    simp
  · intro h
    simp [PrerequisiteChecker.check_prerequisites_sync, h]
  · intro h hmem
    rw [PrerequisiteChecker.filter_by_prerequisites, List.mem_filter]
    refine ⟨hmem, ?_⟩
    have hall : (PrerequisiteChecker.check_prerequisites_sync skill avail).all_satisfied
        = true := by
      simp [PrerequisiteChecker.check_prerequisites_sync, h]
    have hnil : (PrerequisiteChecker.check_prerequisites_sync skill avail).prerequisites
        = [] := by
      simp [PrerequisiteChecker.check_prerequisites_sync, h]
    cases require_all <;> simp [hall, hnil]
  · decide


/-- **C9** (confirmed).  Whenever `buildChain` returns a chain, every entry
of every step's `dependsOn` names a step with a strictly smaller `order` (so
no step depends on itself or a later step, and the relation is acyclic).  In
fact every returned chain has only empty `dependsOn` sets: the dependency
scan raises as soon as a step is added after an existing one, so a chain is
only ever returned when each `_determine_dependencies` call saw an empty
step list. -/
theorem C9_chain_dependencies_acyclic (core_skill : SkillMetadata)
    (problem_type : ProblemType) (problem_features : ProblemFeatures)
    (available_skills : List SkillMetadata) :
    chainResultDependsOnEarlier
      (SkillChainBuilder.build_chain core_skill problem_type problem_features
        available_skills) := by
  cases hb : SkillChainBuilder.buildSteps core_skill available_skills problem_features
      (SkillChainBuilder.workflowPattern problem_type) ([], 0) with
  | error e =>
    have herr : SkillChainBuilder.build_chain core_skill problem_type problem_features
        available_skills = .error e := by
      simp only [SkillChainBuilder.build_chain]
      rw [hb, SkillChainBuilder.exceptBind_error]
    rw [herr]
    trivial
  | ok acc =>
    obtain ⟨steps, ord⟩ := acc
    have hdeps : ∀ s ∈ steps, s.depends_on = ([] : List String) :=
      SkillChainBuilder.buildSteps_ok_deps (by simp) hb
    simp only [SkillChainBuilder.build_chain]
    rw [hb, SkillChainBuilder.exceptBind_ok]
    intro step hstep dep hdep
    rw [hdeps step hstep] at hdep
    cases hdep


/-- **C3** (confirmed).  Every one of the six sub-matchers returns a
non-empty justification string on every branch, so for every skill and
problem input the match result carries exactly six non-empty
`matchReasons`, `confidence = min(6/4, 1) = 1.0` and an empty `mismatches`
list; consequently the `confidence_score` ranking strategy assigns every
match result the same `finalScore` (namely 1). -/
theorem C3_six_reasons_full_confidence (skill : SkillMetadata)
    (pf : ProblemFeatures) (pt : ProblemType)
    (dtr : Option DataTypeDetectionResult) (fmt : Option OutputFormat)
    (history : List (String × Int)) :
    (SkillMatcher._match_single_skill skill pf pt dtr fmt).match_reasons.length = 6 ∧
    (∀ r ∈ (SkillMatcher._match_single_skill skill pf pt dtr fmt).match_reasons, r ≠ "") ∧
    (SkillMatcher._match_single_skill skill pf pt dtr fmt).confidence = 1 ∧
    (SkillMatcher._match_single_skill skill pf pt dtr fmt).mismatches = [] ∧
    RecommendationScorer._calculate_final_score .confidence_score history
      (SkillMatcher._match_single_skill skill pf pt dtr fmt) = 1 := by
  obtain ⟨h1, h2, h3, h4, -, -⟩ := SkillMatcher.match_single_skill_spec skill pf pt dtr fmt
  exact ⟨h1, h2, h3, h4, h3⟩

/-- **C8** (confirmed).  Every sub-score, the composite match score, the
match confidence, and — when the usage history has non-negative counts —
the final score computed by every ranking strategy, including the final
scores of all recommendations produced by the full
`match`-then-`scoreRecommendations` pipeline, lie in [0, 1]. -/
theorem C8_scores_within_unit_interval (history : List (String × Int))
    (skill : SkillMetadata) (pf : ProblemFeatures) (pt : ProblemType)
    (dtr : Option DataTypeDetectionResult) (fmt : Option OutputFormat) :
    (0 ≤ (SkillMatcher._match_category skill pf).1 ∧
      (SkillMatcher._match_category skill pf).1 ≤ 1) ∧
    (0 ≤ (SkillMatcher._match_data_types skill pf dtr).1 ∧
      (SkillMatcher._match_data_types skill pf dtr).1 ≤ 1) ∧
    (0 ≤ (SkillMatcher._match_problem_type skill pt).1 ∧
      (SkillMatcher._match_problem_type skill pt).1 ≤ 1) ∧
    (0 ≤ (SkillMatcher._match_output_format skill fmt).1 ∧
      (SkillMatcher._match_output_format skill fmt).1 ≤ 1) ∧
    (0 ≤ (SkillMatcher._match_tags skill pf).1 ∧
      (SkillMatcher._match_tags skill pf).1 ≤ 1) ∧
    (0 ≤ (SkillMatcher._match_statistical_concept skill pf).1 ∧
      (SkillMatcher._match_statistical_concept skill pf).1 ≤ 1) ∧
    (0 ≤ (SkillMatcher._match_single_skill skill pf pt dtr fmt).score ∧
      (SkillMatcher._match_single_skill skill pf pt dtr fmt).score ≤ 1) ∧
    (0 ≤ (SkillMatcher._match_single_skill skill pf pt dtr fmt).confidence ∧
      (SkillMatcher._match_single_skill skill pf pt dtr fmt).confidence ≤ 1) ∧
    ((∀ p ∈ history, (0 : Int) ≤ p.2) → ∀ ranking_method : RankingMethod,
      0 ≤ RecommendationScorer._calculate_final_score ranking_method history
          (SkillMatcher._match_single_skill skill pf pt dtr fmt) ∧
      RecommendationScorer._calculate_final_score ranking_method history
          (SkillMatcher._match_single_skill skill pf pt dtr fmt) ≤ 1) ∧
    ((∀ p ∈ history, (0 : Int) ≤ p.2) →
      ∀ (ranking_method : RankingMethod) (skills : List SkillMetadata)
        (top_k max_recommendations : Int) (rec : Recommendation),
      rec ∈ RecommendationScorer.score_recommendations ranking_method history
        (SkillMatcher.matchSkills skills pf pt dtr fmt top_k) max_recommendations →
      0 ≤ rec.final_score ∧ rec.final_score ≤ 1) := by
  obtain ⟨hlen, hne, hconf, hmis, hs0, hs1⟩ :=
    SkillMatcher.match_single_skill_spec skill pf pt dtr fmt
  have hc0 : 0 ≤ (SkillMatcher._match_single_skill skill pf pt dtr fmt).confidence := by
    rw [hconf]; norm_num
  have hc1 : (SkillMatcher._match_single_skill skill pf pt dtr fmt).confidence ≤ 1 := by
    rw [hconf]
  refine ⟨(SkillMatcher.match_category_spec skill pf).1,
    (SkillMatcher.match_data_types_spec skill pf dtr).1,
    (SkillMatcher.match_problem_type_spec skill pt).1,
    (SkillMatcher.match_output_format_spec skill fmt).1,
    (SkillMatcher.match_tags_spec skill pf).1,
    (SkillMatcher.match_statistical_concept_spec skill pf).1,
    ⟨hs0, hs1⟩, ⟨hc0, hc1⟩, ?_, ?_⟩
  · intro hh ranking_method
    exact RecommendationScorer.final_score_bounds ranking_method history hh _
      hs0 hs1 hc0 hc1
  · intro hh ranking_method skills top_k max_recommendations rec hrec
    obtain ⟨mr, hmr, he⟩ := RecommendationScorer.mem_score_recommendations hrec
    obtain ⟨sk, hsk, rfl⟩ := SkillMatcher.mem_matchSkills hmr
    obtain ⟨-, -, hconf2, -, hs02, hs12⟩ :=
      SkillMatcher.match_single_skill_spec sk pf pt dtr fmt
    rw [he]
    exact RecommendationScorer.final_score_bounds ranking_method history hh _
      hs02 hs12 (by rw [hconf2]; norm_num) (by rw [hconf2])

end StatsSolver
